import Mathlib

/-!
# Streaming response pipeline of `handlers/event_msg_action.go`

A shallow embedding of `StreamMessageAction.Execute` and of the card helpers it
calls (`handlers/msg.go`).  The goroutines of one streaming request (coordinator
wait loop, producer, publisher, no-content timer callback) are embedded as an
interleaving step function over an explicit state; a schedule is a list of
events, and `run` is defined only on schedules whose every event is enabled.

Conventions of the embedding:

* Go strings are Lean strings, `len` is the UTF-8 byte size.
* Steps take no time; time passes only in `Ev.elapse`.  The timer created by
  `time.AfterFunc(10*time.Second, ...)` fires when the clock reaches 10000 ms
  while it has not been stopped; `streamTicker` puts a tick in its channel each
  time the clock passes a multiple of 800 ms.
* `chatResponseStream` is unbuffered, so a send in `StreamChat` and the receive
  in the coordinator are one event (`Ev.recv`); the two statements that follow
  the receive (`noContentTimeout.Stop()`, `answer += res`) touch only the timer
  and the coordinator's own variable and are part of that event.
* `StreamChat` is not among the sources; it is taken as a script: the fragments
  it sends, in order, and how it ends.  It does not close `chatResponseStream`
  (only the coordinator does, right before it returns, so the `!ok` branch of
  the receive is never taken while the coordinator waits).
* Whether a card patch succeeds is chosen by the schedule.

The second part embeds the model commands of `handlers/event_model_action.go`,
the "main models" card handler of `handlers/card_model_action.go` and the
catalog of `services/openai/models.go` as functions on a session that also
logs the calls made.  Go leaves the order of a `range` over a map open, so the
functions that range over `SupportedModels` take the order visited as an
argument, a permutation of the catalog.  `unicode.ToLower`, the case mapping of
single characters behind `strings.ToLower`, is an argument too.  A call of
`CompletionsWithModel` is taken by how it ends: it returns a message and an
error, or it panics; a panic ends the handler or goroutine that made the call.

The third part embeds `decryptFeishuData` and `handleCardCallback` of `main.go`,
`ChatGPT.CompletionsWithModel` of `services/openai/gpt3.go` and the model-switch
card handler of `handlers/card_model_action.go`.  Here a Go run-time panic is a
result of its own (`panicked`), bytes are natural numbers below 256 in a list,
and the library routines called (SHA-256, base64 decoding, AES-CBC decryption,
JSON decoding, the HTTP request) are arguments of the embedding.
-/

namespace Feishu

/-! ## Data model -/

/-- `openai.Messages` (`services/openai/gpt3.go`). -/
structure Messages where
  Role : String
  Content : String
deriving DecidableEq, Repr

/-- Go `len(s)` on a string: the number of bytes. -/
def len (s : String) : Nat := s.utf8ByteSize

/-- `hasSystemRole` (`event_msg_action.go`). -/
def hasSystemRole (msg : List Messages) : Bool :=
  msg.any (fun m => m.Role == "system")

/-- `setDefaultPrompt`; `date` stands for `time.Now().Format("2006年01月02日")`. -/
def setDefaultPrompt (date : String) (msg : List Messages) : List Messages :=
  if !hasSystemRole msg then
    msg ++ [{ Role := "system",
              Content := "你是一个智能助手，请默认使用中文回答用户的问题，除非用户明确要求使用其他语言。请尽可能详细和准确地回答用户的问题。当前日期：" ++ date }]
  else msg

/-! ## Card text (`withMainMd`) -/

/-- Go `unicode.IsSpace`. -/
def isSpace (c : Char) : Bool :=
  c.toNat = 0x09 || c.toNat = 0x0A || c.toNat = 0x0B || c.toNat = 0x0C || c.toNat = 0x0D ||
  c.toNat = 0x20 || c.toNat = 0x85 || c.toNat = 0xA0 || c.toNat = 0x1680 ||
  (0x2000 ≤ c.toNat && c.toNat ≤ 0x200A) || c.toNat = 0x2028 || c.toNat = 0x2029 ||
  c.toNat = 0x202F || c.toNat = 0x205F || c.toNat = 0x3000

/-- Go `strings.TrimSpace` on the characters of a string. -/
def trimSpaceChars (l : List Char) : List Char :=
  ((l.dropWhile isSpace).reverse.dropWhile isSpace).reverse

/-- Go `strings.TrimSpace`. -/
def TrimSpace (s : String) : String := ⟨trimSpaceChars s.data⟩

/-- Go `strings.ReplaceAll(msg, "\\n", "\n")` on characters: every
non-overlapping backslash-`n` pair, scanning from the left, becomes a newline. -/
def replaceEscapedNewlines : List Char → List Char
  | [] => []
  | [c] => [c]
  | c :: d :: rest =>
    if c = '\\' ∧ d = 'n' then '\n' :: replaceEscapedNewlines rest
    else c :: replaceEscapedNewlines (d :: rest)

/-- The markdown content `withMainMd` puts in the card body for `msg`. -/
def withMainMd (msg : String) : String :=
  ⟨replaceEscapedNewlines (TrimSpace msg).data⟩

/-- What the card builders of `msg.go` put in a card, as far as the streaming
path sets it: header, markdown body, model-switch buttons, footer note. -/
structure Card where
  title : String
  template : String
  body : String
  modelSwitchButtons : Bool
  note : String
deriving DecidableEq, Repr

/-- Header title chosen by `ifNewTopic` in the card functions. -/
def topicTitle (ifNewTopic : Bool) : String :=
  if ifNewTopic then "🌟 已开启新的话题" else "🔃️ 上下文的话题"

/-- The card `updateTextCard` patches. -/
def textCard (msg : String) (ifNewTopic : Bool) : Card :=
  { title := topicTitle ifNewTopic, template := "blue", body := withMainMd msg,
    modelSwitchButtons := false, note := "正在生成，请稍等..." }

/-- The card `updateFinalCardWithSession` patches. -/
def finalCard (msg : String) (ifNewSession : Bool) : Card :=
  { title := topicTitle ifNewSession, template := "blue", body := withMainMd msg,
    modelSwitchButtons := true,
    note := "已完成，点击按钮可切换模型回答，或继续提问保持话题连贯。" }

/-! ## One streaming request as a transition system -/

/-- How the call `a.handler.gpt.StreamChat(...)` ends (the function is not part
of the sources at hand; it is a parameter of the model). -/
inductive ChatResult
  | ok
  | err
  | panics
deriving DecidableEq, Repr

/-- Everything fixed for one streaming request. -/
structure Cfg where
  /-- `msg` of `Execute`: stored history with the default prompt, plus the question. -/
  msg : List Messages
  /-- `ifNewTopic`. -/
  ifNewTopic : Bool
  /-- The fragments `StreamChat` sends on `chatResponseStream`, in order. -/
  frags : List String
  /-- How `StreamChat` ends after sending them. -/
  result : ChatResult
deriving Repr

/-- Calls that leave the process, in the order they are made; `ok` is whether
the call returned a nil error. -/
inductive Effect
  | updateTextCard (msg : String) (ok : Bool)
  | updateFinalCardWithSession (msg : String) (ok : Bool)
  | SetMsg (msg : List Messages)
deriving DecidableEq, Repr

/-- State of `noContentTimeout`. -/
inductive TimerState
  | armed
  | stopped
  | fired
deriving DecidableEq, Repr

/-- Control point of the coordinator goroutine (the `for { select }` loop). -/
inductive CoordPc
  | waiting
  | finalizing
  | returned
deriving DecidableEq, Repr

/-- Control point of the producer goroutine. -/
inductive ProdPc
  | streaming
  | errPush
  | close177
  | close180
  | recovering
  | exited
deriving DecidableEq, Repr

/-- Control point of the `time.AfterFunc` callback. -/
inductive CbPc
  | idle
  | atClose
  | atPush
  | finished
deriving DecidableEq, Repr

/-- Control point of the publisher goroutine. -/
inductive PubPc
  | selecting
  | pushing (content : String)
  | exited
deriving DecidableEq, Repr

/-- State of one streaming request. -/
structure St where
  /-- Milliseconds since the timer and the ticker were created. -/
  now : Nat
  answer : String
  lastUpdateLength : Nat
  isStreaming : Bool
  /-- `done` has been closed. -/
  doneClosed : Bool
  /-- `chatResponseStream` has been closed. -/
  streamClosed : Bool
  /-- State of the `time.AfterFunc` timer. -/
  noContentTimeout : TimerState
  tickerStopped : Bool
  /-- A tick is waiting in `streamTicker.C`. -/
  tickPending : Bool
  coord : CoordPc
  prod : ProdPc
  /-- Number of fragments `StreamChat` has handed over so far. -/
  sent : Nat
  cb : CbPc
  pub : PubPc
  /-- An unrecovered panic has taken the process down. -/
  crashed : Bool
  /-- Content of the session cache for this session (`GetMsg` / `SetMsg`). -/
  record : List Messages
  effects : List Effect
deriving DecidableEq, Repr

/-- Duration of `noContentTimeout`, in milliseconds (`10*time.Second`). -/
def noContentDuration : Nat := 10000

/-- Period of `streamTicker`, in milliseconds. -/
def tickPeriod : Nat := 800

/-- The suffix the publisher adds to a non-empty partial answer. -/
def indicator : String := "\n\n⏳ *正在生成中...*"

/-- State right after `Execute` has started the goroutines; `history` is what
the session cache holds. -/
def init (history : List Messages) : St :=
  { now := 0, answer := "", lastUpdateLength := 0, isStreaming := true,
    doneClosed := false, streamClosed := false, noContentTimeout := .armed,
    tickerStopped := false, tickPending := false, coord := .waiting,
    prod := .streaming, sent := 0, cb := .idle, pub := .selecting,
    crashed := false, record := history, effects := [] }

/-- `noContentTimeout.Stop()`. -/
def stopTimer (t : TimerState) : TimerState :=
  match t with
  | .armed => .stopped
  | t => t

/-- Where the publisher goes at the loop head `for isStreaming`. -/
def pubLoopHead (isStreaming : Bool) : PubPc :=
  if isStreaming then .selecting else .exited

/-- Scheduler choices: which goroutine takes its next step, how much time
passes, and whether a remote call succeeds. -/
inductive Ev
  /-- Time passes. -/
  | elapse (dt : Nat)
  /-- Coordinator `case res, ok := <-chatResponseStream` paired with the send in `StreamChat`. -/
  | recv
  /-- Coordinator `case <-done`: up to `streamTicker.Stop()`. -/
  | coordDone
  /-- Coordinator: `updateFinalCardWithSession(answer)` to `return`. -/
  | coordFinal (ok : Bool)
  /-- `StreamChat` returns. -/
  | chatReturn
  /-- `StreamChat` sends on the closed `chatResponseStream`. -/
  | prodSendClosed
  /-- Producer: the failure card after `StreamChat` returned an error. -/
  | prodErrPush (ok : Bool)
  /-- Producer: `close(done)` inside the error branch. -/
  | prodClose177
  /-- Producer: the last `close(done)`. -/
  | prodClose180
  /-- Producer: the deferred `recover` handler. -/
  | prodRecover (ok : Bool)
  /-- Timer callback: `close(done)`. -/
  | cbClose
  /-- Timer callback: the timeout card. -/
  | cbPush (ok : Bool)
  /-- Publisher `case <-done`. -/
  | pubDone
  /-- Publisher `case <-streamTicker.C`, up to the call of `updateTextCard`. -/
  | pubTick
  /-- Publisher: `updateTextCard` returns. -/
  | pubPush (ok : Bool)
deriving DecidableEq, Repr

/-- One step of the request; `none` when the event is not enabled.  A `close`
of the already closed `done` panics: in the producer the deferred `recover`
runs next, in the timer callback nothing recovers and the process goes down. -/
def step (c : Cfg) (s : St) (e : Ev) : Option St :=
  if s.crashed then none else
  match e with
  | .elapse dt =>
    let now' := s.now + dt
    let fire := s.noContentTimeout = .armed ∧ noContentDuration ≤ now'
    let tick := s.tickerStopped = false ∧ s.now / tickPeriod < now' / tickPeriod
    some { s with
      now := now'
      noContentTimeout := if fire then .fired else s.noContentTimeout
      cb := if fire then .atClose else s.cb
      tickPending := if tick then true else s.tickPending }
  | .recv =>
    if s.coord = .waiting ∧ s.prod = .streaming ∧ s.streamClosed = false then
      match c.frags.get? s.sent with
      | some res =>
        some { s with
          sent := s.sent + 1
          noContentTimeout := stopTimer s.noContentTimeout
          answer := s.answer ++ res }
      | none => none
    else none
  | .coordDone =>
    if s.coord = .waiting ∧ s.doneClosed = true then
      some { s with isStreaming := false, tickerStopped := true, coord := .finalizing }
    else none
  | .coordFinal ok =>
    if s.coord = .finalizing then
      if ok then
        let msg := c.msg ++ [{ Role := "assistant", Content := s.answer }]
        some { s with
          effects := s.effects ++ [.updateFinalCardWithSession s.answer true, .SetMsg msg]
          record := msg
          streamClosed := true
          coord := .returned
          tickerStopped := true
          noContentTimeout := stopTimer s.noContentTimeout }
      else
        some { s with
          effects := s.effects ++ [.updateFinalCardWithSession s.answer false]
          coord := .returned
          tickerStopped := true
          noContentTimeout := stopTimer s.noContentTimeout }
    else none
  | .chatReturn =>
    if s.prod = .streaming ∧ s.sent = c.frags.length then
      match c.result with
      | .ok => some { s with prod := .close180 }
      | .err => some { s with prod := .errPush }
      | .panics => some { s with prod := .recovering }
    else none
  | .prodSendClosed =>
    if s.prod = .streaming ∧ s.sent < c.frags.length ∧ s.streamClosed = true then
      some { s with prod := .recovering }
    else none
  | .prodErrPush ok =>
    if s.prod = .errPush then
      some { s with
        effects := s.effects ++ [.updateFinalCardWithSession "聊天失败" ok]
        prod := if ok then .close177 else .exited }
    else none
  | .prodClose177 =>
    if s.prod = .close177 then
      if s.doneClosed then some { s with prod := .recovering }
      else some { s with doneClosed := true, prod := .close180 }
    else none
  | .prodClose180 =>
    if s.prod = .close180 then
      if s.doneClosed then some { s with prod := .recovering }
      else some { s with doneClosed := true, prod := .exited }
    else none
  | .prodRecover ok =>
    if s.prod = .recovering then
      some { s with
        effects := s.effects ++ [.updateFinalCardWithSession "聊天失败" ok]
        prod := .exited }
    else none
  | .cbClose =>
    if s.cb = .atClose then
      if s.doneClosed then some { s with crashed := true, cb := .finished }
      else some { s with doneClosed := true, cb := .atPush }
    else none
  | .cbPush ok =>
    if s.cb = .atPush then
      some { s with
        effects := s.effects ++ [.updateFinalCardWithSession "请求超时" ok]
        cb := .finished }
    else none
  | .pubDone =>
    if s.pub = .selecting ∧ s.doneClosed = true then
      some { s with isStreaming := false, pub := .exited }
    else none
  | .pubTick =>
    if s.pub = .selecting ∧ s.tickPending = true then
      if len s.answer > s.lastUpdateLength then
        let streamingContent := if len s.answer > 0 then s.answer ++ indicator else s.answer
        some { s with tickPending := false, pub := .pushing streamingContent }
      else
        some { s with tickPending := false, pub := pubLoopHead s.isStreaming }
    else none
  | .pubPush ok =>
    match s.pub with
    | .pushing content =>
      if ok then
        some { s with
          effects := s.effects ++ [.updateTextCard content true]
          lastUpdateLength := len s.answer
          pub := pubLoopHead s.isStreaming }
      else
        some { s with
          effects := s.effects ++ [.updateTextCard content false]
          pub := pubLoopHead s.isStreaming }
    | _ => none

/-- Run a schedule; `none` as soon as an event is not enabled. -/
def run (c : Cfg) (s : St) : List Ev → Option St
  | [] => some s
  | e :: es => (step c s e).bind (fun s' => run c s' es)

/-- Number of calls of `updateFinalCardWithSession` in an effect log. -/
def finalPushes (l : List Effect) : Nat :=
  (l.filter (fun e => match e with
    | .updateFinalCardWithSession _ _ => true
    | _ => false)).length

/-- Number of calls of `updateTextCard` in an effect log. -/
def partialPushes (l : List Effect) : Nat :=
  (l.filter (fun e => match e with
    | .updateTextCard _ _ => true
    | _ => false)).length

/-- Cards patched by the calls of `updateFinalCardWithSession`, in order. -/
def finalCards (ifNewTopic : Bool) (l : List Effect) : List Card :=
  l.filterMap (fun e => match e with
    | .updateFinalCardWithSession msg _ => some (finalCard msg ifNewTopic)
    | _ => none)

/-- Cards patched by the calls of `updateTextCard`, in order. -/
def textCards (ifNewTopic : Bool) (l : List Effect) : List Card :=
  l.filterMap (fun e => match e with
    | .updateTextCard msg _ => some (textCard msg ifNewTopic)
    | _ => none)

/-! ## `StreamMessageAction.Execute` up to the start of the goroutines -/

/-- The request `Execute` hands to the background goroutine: `msg` is
`setDefaultPrompt(GetMsg(sessionId))` plus the user message, `ifNewTopic` is
`len(msg) <= 3`. -/
def requestCfg (date : String) (history : List Messages) (qParsed : String)
    (frags : List String) (result : ChatResult) : Cfg :=
  let msg := setDefaultPrompt date history ++ [{ Role := "user", Content := qParsed }]
  { msg := msg, ifNewTopic := decide (msg.length ≤ 3), frags := frags, result := result }

/-- What `Execute` has done when it returns. -/
structure ExecOut where
  /-- The boolean returned to the action chain. -/
  ret : Bool
  /-- `sendOnProcess` was called. -/
  placeholderTried : Bool
  /-- The streaming request started in the background, with its first state. -/
  started : Option (Cfg × St)
deriving Repr

/-- `StreamMessageAction.Execute`; `sendOnProcess` is the outcome of the
placeholder send (card id or error) for a given `ifNewTopic`. -/
def Execute (streamMode : Bool) (date : String) (history : List Messages)
    (qParsed : String) (sendOnProcess : Bool → Except String String)
    (frags : List String) (result : ChatResult) : ExecOut :=
  if !streamMode then { ret := true, placeholderTried := false, started := none }
  else
    let c := requestCfg date history qParsed frags result
    match sendOnProcess c.ifNewTopic with
    | .error _ => { ret := false, placeholderTried := true, started := none }
    | .ok _ => { ret := false, placeholderTried := true, started := some (c, init history) }

/-- State of the background work of an `Execute` call after a schedule: `none`
when no request was started or the schedule is not one of its runs. -/
def ExecOut.after (o : ExecOut) (es : List Ev) : Option St :=
  match o.started with
  | none => none
  | some (c, s) => run c s es

/-- Outward calls made by the background work of an `Execute` call along a schedule. -/
def ExecOut.effectsAfter (o : ExecOut) (es : List Ev) : List Effect :=
  match o.after es with
  | none => []
  | some s => s.effects

/-- Session record after the background work of an `Execute` call ran a schedule. -/
def ExecOut.recordAfter (o : ExecOut) (history : List Messages) (es : List Ev) : List Messages :=
  match o.after es with
  | none => history
  | some s => s.record

/-! ## Schedules used as concrete inputs -/

/-- History of a session with one earlier exchange. -/
def sampleHistory : List Messages :=
  [{ Role := "system", Content := "sys" }, { Role := "user", Content := "hi" },
   { Role := "assistant", Content := "hello" }]

/-- `StreamChat` returns an error before any fragment; every card patch succeeds. -/
def errorSchedule : List Ev :=
  [.chatReturn, .prodErrPush true, .prodClose177, .prodClose180, .prodRecover true,
   .coordDone, .coordFinal true]

/-- Nothing arrives for ten seconds; every card patch succeeds. -/
def timeoutSchedule : List Ev :=
  [.elapse 10000, .cbClose, .cbPush true, .coordDone, .coordFinal true]

/-- One fragment arrives, then `StreamChat` returns an error; every card patch succeeds. -/
def fragmentThenErrorSchedule : List Ev :=
  [.recv, .chatReturn, .prodErrPush true, .prodClose177, .prodClose180, .prodRecover true,
   .coordDone, .coordFinal true]

/-! ## Observations and invariants -/

/-- The concatenation `f1 ++ ... ++ fn` of a list of fragments. -/
def concatFrags (l : List String) : String := l.foldl (fun acc f => acc ++ f) ""

/-- Timer facts that hold in every state of a request. -/
structure TimerInv (s : St) : Prop where
  armed_early : s.noContentTimeout = .armed → s.now < noContentDuration
  armed_unsent : s.noContentTimeout = .armed → s.sent = 0 ∧ s.coord ≠ .returned
  stopped_why : s.noContentTimeout = .stopped → 0 < s.sent ∨ s.coord = .returned
  cb_idle : s.cb = .idle ↔ s.noContentTimeout ≠ .fired

/-- A partial answer: the concatenation of the first `k` fragments, not empty. -/
def IsPartialOf (c : Cfg) (msg : String) : Prop :=
  ∃ k, 0 < len (concatFrags (c.frags.take k)) ∧
    msg = concatFrags (c.frags.take k) ++ indicator

/-- A call of `updateTextCard` carries a partial answer plus the indicator. -/
def PartialOk (c : Cfg) : Effect → Prop
  | .updateTextCard msg _ => IsPartialOf c msg
  | _ => True

/-- What the accumulated answer and the partial pushes are made of. -/
structure AnswerInv (c : Cfg) (s : St) : Prop where
  answer_eq : s.answer = concatFrags (c.frags.take s.sent)
  sent_le : s.sent ≤ c.frags.length
  returned_all : s.prod = .errPush ∨ s.prod = .close177 ∨ s.prod = .close180 →
    s.sent = c.frags.length
  pushing_partial : ∀ content, s.pub = .pushing content → IsPartialOf c content
  pushed_partial : ∀ e ∈ s.effects, PartialOk c e

/-- The record the coordinator stores: the request context plus one assistant message. -/
def storedRecord (c : Cfg) (answer : String) : List Messages :=
  c.msg ++ [{ Role := "assistant", Content := answer }]

/-- Arguments of the `SetMsg` calls in an effect log, in order. -/
def setMsgs (l : List Effect) : List (List Messages) :=
  l.filterMap (fun e => match e with
    | .SetMsg m => some m
    | _ => none)

/-- Messages passed to `updateFinalCardWithSession` in an effect log, in order. -/
def finalMsgs (l : List Effect) : List String :=
  l.filterMap (fun e => match e with
    | .updateFinalCardWithSession m _ => some m
    | _ => none)

/-- Messages passed to `updateTextCard` in an effect log, in order. -/
def textMsgs (l : List Effect) : List String :=
  l.filterMap (fun e => match e with
    | .updateTextCard m _ => some m
    | _ => none)

/-- Who closed `done`, and what the coordinator has stored. -/
structure DoneInv (c : Cfg) (history : List Messages) (s : St) : Prop where
  closed_by : s.doneClosed = true → s.noContentTimeout = .fired ∨ s.sent = c.frags.length
  coord_after_done : s.coord ≠ .waiting → s.doneClosed = true
  stored : s.streamClosed = true →
    s.coord = .returned ∧ s.record = storedRecord c s.answer ∧
      setMsgs s.effects = [storedRecord c s.answer]
  not_stored : s.streamClosed = false → s.record = history ∧ setMsgs s.effects = []

/-- Facts of a request whose `StreamChat` call returns nil and whose timer has not fired. -/
structure NormalInv (c : Cfg) (s : St) : Prop where
  prod_pc : s.prod = .streaming ∨ s.prod = .close180 ∨ s.prod = .exited
  done_exited : s.doneClosed = true → s.prod = .exited
  final_pushed : s.coord = .returned → finalMsgs s.effects = [concatFrags c.frags]
  final_pending : s.coord ≠ .returned → finalMsgs s.effects = []

/-- Everything that holds in the states reached from the initial state. -/
structure Inv (c : Cfg) (history : List Messages) (s : St) : Prop where
  timer : TimerInv s
  answer : AnswerInv c s
  done : DoneInv c history s
  normal : c.result = .ok → s.noContentTimeout ≠ .fired → NormalInv c s

/-- Time that passes in a schedule before each fragment receipt, counted from
the previous receipt; `g` is the time already passed since then. -/
def arrivalGaps (g : Nat) : List Ev → List Nat
  | [] => []
  | .elapse dt :: es => arrivalGaps (g + dt) es
  | .recv :: es => g :: arrivalGaps 0 es
  | _ :: es => arrivalGaps g es

/-- A backslash directly followed by `n` occurs in the characters. -/
def hasEscapedNewline : List Char → Bool
  | [] => false
  | [_] => false
  | c :: d :: rest => (c = '\\' ∧ d = 'n') || hasEscapedNewline (d :: rest)

/-- Text that has no white space at either end and no backslash-`n` pair. -/
def PlainMd (s : String) : Prop :=
  (∀ c ∈ s.data.head?, isSpace c = false) ∧ (∀ c ∈ s.data.getLast?, isSpace c = false) ∧
    hasEscapedNewline s.data = false

/-! ## More schedules used as concrete inputs -/

/-- Two fragments, of which only the first is handed over before a long stall. -/
def stallSchedule : List Ev := [.elapse 200, .recv, .elapse 20000]

/-- Three fragments 9 s apart: 27 s in all, every gap below 10 s. -/
def slowSchedule : List Ev :=
  [.elapse 9000, .recv, .elapse 9000, .recv, .elapse 9000, .recv, .chatReturn, .prodClose180,
   .coordDone, .coordFinal true]

/-- All fragments arrive and `StreamChat` returns nil, but the final patch fails. -/
def finalPatchFailsSchedule : List Ev :=
  [.recv, .recv, .chatReturn, .prodClose180, .coordDone, .coordFinal false]

/-- All fragments arrive, `StreamChat` returns nil, the final patch succeeds. -/
def normalSchedule : List Ev :=
  [.elapse 200, .recv, .elapse 200, .recv, .elapse 200, .recv, .elapse 200, .pubTick,
   .pubPush true, .chatReturn, .prodClose180, .coordDone, .coordFinal true]

/-- All fragments arrive, the last one ends with a newline, the final patch succeeds. -/
def trailingNewlineSchedule : List Ev :=
  [.recv, .recv, .chatReturn, .prodClose180, .coordDone, .coordFinal true]

/-! ## Publisher bookkeeping and further schedules -/

/-- What the publisher's bookkeeping satisfies in every state of a request. -/
structure PublishInv (s : St) : Prop where
  published_le : s.lastUpdateLength ≤ len s.answer
  pushing_grown : ∀ content, s.pub = .pushing content → s.lastUpdateLength < len s.answer
  stopped_after_done : s.isStreaming = false → s.doneClosed = true

/-- One fragment, then two ticks: the first pushes, the second finds nothing new. -/
def twoTickSchedule : List Ev :=
  [.elapse 100, .recv, .elapse 700, .pubTick, .pubPush true, .elapse 800, .pubTick]

/-- The state 800 ms into a request, one fragment "Hi" received, first tick waiting. -/
def firstTickState : St :=
  { init sampleHistory with
    now := 800, answer := "Hi", sent := 1, noContentTimeout := .stopped, tickPending := true }

/-- The state of `firstTickState` after the tick: the push of "Hi" is in flight. -/
def pushingState : St :=
  { firstTickState with tickPending := false, pub := .pushing ("Hi" ++ indicator) }

/-- `StreamChat` returns an error; the producer runs up to its second `close(done)`. -/
def doubleCloseSchedule : List Ev :=
  [.chatReturn, .prodErrPush true, .prodClose177, .prodClose180]

/-- The timer closes `done` first; `StreamChat` then returns nil and the producer closes it again. -/
def timeoutThenReturnSchedule : List Ev :=
  [.elapse 10000, .cbClose, .cbPush true, .chatReturn, .prodClose180, .prodRecover true]

/-- A push of "a" is in flight when the second tick arrives; "b" arrives after the
push returned; the producer finishes, the coordinator patches the final card,
and the publisher, already past its loop test, then takes the waiting tick. -/
def lateTickSchedule : List Ev :=
  [.elapse 100, .recv, .elapse 700, .pubTick, .elapse 800, .pubPush true, .recv, .chatReturn,
   .prodClose180, .coordDone, .coordFinal true, .pubTick, .pubPush true]

/-- `StreamChat` returns nil without a fragment; the timer fires before the coordinator returns. -/
def lateTimerSchedule : List Ev :=
  [.elapse 9900, .chatReturn, .prodClose180, .coordDone, .elapse 100, .cbClose]

/-! ## Strings (`strings` package) -/

/-- Go `strings.HasPrefix`. -/
def HasPrefix (s pre : String) : Bool := pre.data.isPrefixOf s.data

/-- Go `strings.Contains`. -/
def Contains (s substr : String) : Bool :=
  s.data.tails.any (fun t => substr.data.isPrefixOf t)

/-- Go `strings.ToLower`: the character-wise map `strings.Map(unicode.ToLower, s)`,
for the case mapping `lower` of single characters (`unicode.ToLower`, which is
not among the sources and is an argument of the embedding). -/
def ToLower (lower : Char → Char) (s : String) : String := ⟨s.data.map lower⟩

/-- Fields of the characters after `cur` (the field being read, reversed). -/
def fieldsChars : List Char → List Char → List (List Char)
  | cur, [] => if cur.isEmpty then [] else [cur.reverse]
  | cur, c :: rest =>
    if isSpace c then
      if cur.isEmpty then fieldsChars [] rest else cur.reverse :: fieldsChars [] rest
    else fieldsChars (c :: cur) rest

/-- Go `strings.Fields`: the maximal runs of characters that are not white space. -/
def Fields (s : String) : List String := (fieldsChars [] s.data).map String.mk

/-- The characters before and after the first space, when there is one. -/
def cutAtSpace : List Char → Option (List Char × List Char)
  | [] => none
  | c :: rest =>
    if c = ' ' then some ([], rest)
    else match cutAtSpace rest with
      | some (a, b) => some (c :: a, b)
      | none => none

/-- Go `strings.SplitN(s, " ", 2)`. -/
def SplitN (s : String) : List String :=
  match cutAtSpace s.data with
  | some (a, b) => [⟨a⟩, ⟨b⟩]
  | none => [s]

/-! ## Model catalog (`services/openai/models.go`) -/

/-- `openai.ModelInfo`. -/
structure ModelInfo where
  ID : String
  Name : String
  Provider : String
  Description : String
  MaxTokens : Nat
  IsFree : Bool
  Capabilities : List String
  Category : String
deriving DecidableEq, Repr

/-- The map `SupportedModels`, as its entries in source order. -/
def SupportedModels : List (String × ModelInfo) :=
  [("openai/gpt-4o",
      { ID := "openai/gpt-4o", Name := "GPT-4o", Provider := "openai",
        Description := "OpenAI最新的多模态模型，支持文本、图像和语音",
        MaxTokens := 128000, IsFree := false,
        Capabilities := ["text", "vision", "reasoning"], Category := "通用" }),
   ("openai/gpt-4.1",
      { ID := "openai/gpt-4.1", Name := "GPT-4.1", Provider := "openai",
        Description := "OpenAI GPT-4.1，增强的推理能力",
        MaxTokens := 128000, IsFree := false,
        Capabilities := ["text", "reasoning"], Category := "通用" }),
   ("qwen/qwen3-coder:free",
      { ID := "qwen/qwen3-coder:free", Name := "Qwen3 Coder (免费)", Provider := "qwen",
        Description := "通义千问3代码专家版，专为编程任务优化",
        MaxTokens := 32768, IsFree := true,
        Capabilities := ["text", "coding"], Category := "编程" }),
   ("google/gemini-2.5-pro",
      { ID := "google/gemini-2.5-pro", Name := "Gemini 2.5 Pro", Provider := "google",
        Description := "Google最新的大型语言模型，性能卓越",
        MaxTokens := 1000000, IsFree := false,
        Capabilities := ["text", "vision", "reasoning"], Category := "通用" }),
   ("anthropic/claude-sonnet-4",
      { ID := "anthropic/claude-sonnet-4", Name := "claude-sonnet-4", Provider := "anthropic",
        Description := "Anthropic最新的Claude模型，擅长分析和推理",
        MaxTokens := 200000, IsFree := false,
        Capabilities := ["text", "analysis", "reasoning"], Category := "分析" }),
   ("deepseek/deepseek-chat-v3-0324:free",
      { ID := "deepseek/deepseek-chat-v3-0324:free", Name := "DeepSeek Chat V3 (免费)",
        Provider := "deepseek",
        Description := "深度求索聊天模型V3版本，免费使用",
        MaxTokens := 32768, IsFree := true,
        Capabilities := ["text", "reasoning"], Category := "通用" }),
   ("moonshot/kimi-k2-0711-preview",
      { ID := "moonshot/kimi-k2-0711-preview", Name := "Kimi K2 (免费)", Provider := "moonshot",
        Description := "月之暗面Kimi K2模型，OpenRouter免费版本",
        MaxTokens := 128000, IsFree := true,
        Capabilities := ["text", "long_context", "reasoning"], Category := "长文本" })]

/-- The map `ModelCategories`, as its entries in source order. -/
def ModelCategories : List (String × List String) :=
  [("通用", ["openai/gpt-4o", "openai/gpt-4.1", "google/gemini-2.5-pro",
            "deepseek/deepseek-chat-v3-0324:free"]),
   ("编程", ["qwen/qwen3-coder:free"]),
   ("分析", ["anthropic/claude-sonnet-4"]),
   ("长文本", ["moonshot/kimi-k2-0711-preview"]),
   ("免费", ["qwen/qwen3-coder:free", "deepseek/deepseek-chat-v3-0324:free",
            "moonshot/kimi-k2-0711-preview"])]

/-- `GetModelInfo`: the map access `SupportedModels[modelID]`. -/
def GetModelInfo (modelID : String) : Option ModelInfo := SupportedModels.lookup modelID

/-- `GetModelsByCategory`. -/
def GetModelsByCategory (category : String) : List ModelInfo :=
  match ModelCategories.lookup category with
  | some modelIDs => modelIDs.filterMap GetModelInfo
  | none => []

/-- The values of `SupportedModels` in some order: what one `range` over the
map visits (Go leaves the order of map iteration open). -/
def IsIterationOrder (order : List ModelInfo) : Prop :=
  order.Perm (SupportedModels.map Prod.snd)

/-- `GetAllModels`, for the iteration order `order` of its `range`. -/
def GetAllModels (order : List ModelInfo) : List ModelInfo := order

/-- `SearchModels`, for the case mapping `lower` of `strings.ToLower` and the
iteration order `order` of its `range`. -/
def SearchModels (lower : Char → Char) (order : List ModelInfo) (keyword : String) :
    List ModelInfo :=
  let keyword := ToLower lower keyword
  order.filter (fun model =>
    Contains (ToLower lower model.Name) keyword ||
    Contains (ToLower lower model.Description) keyword ||
    Contains (ToLower lower model.Provider) keyword)

/-- The characters of the catalog fields that `SearchModels` reads. -/
def catalogChars : List Char :=
  SupportedModels.flatMap (fun p => p.2.Name.data ++ p.2.Description.data ++ p.2.Provider.data)

/-- What is used of `unicode.ToLower` where a search is evaluated on the shipped
catalog: on ASCII it maps `A`..`Z` to `a`..`z` and keeps every other character,
and it keeps the characters of the catalog that are not ASCII (CJK characters
and punctuation, which have no case). -/
def LowersCatalog (lower : Char → Char) : Prop :=
  (∀ c : Char, c.toNat < 128 → lower c = Char.toLower c) ∧
  (∀ c ∈ catalogChars, 128 ≤ c.toNat → lower c = c)

/-! ## `ChatGPT.CompletionsWithModel` (`services/openai/gpt3.go`) -/

/-- How a call of `CompletionsWithModel` ends: it returns `resp` and `err`
(`none` for nil), or it panics. -/
inductive CompletionOutcome
  | returned (resp : Messages) (err : Option String)
  | panicked (what : String)
deriving DecidableEq, Repr

/-- `CompletionsWithModel`, given the value of `gpt.FullUrl("chat/completions")`
and what `sendRequestWithBodyType` leaves: its error (`none` for nil) and the
messages of `gptResponseBody.Choices`. -/
def CompletionsWithModel (url model : String) (requestErr : Option String)
    (choices : List Messages) : CompletionOutcome :=
  if url = "" then .returned { Role := "", Content := "" } (some "无法获取openai请求地址")
  else
    match requestErr, choices with
    | none, first :: _ => .returned first none
    | some err, _ =>
      .returned { Role := "", Content := "" } (some ("模型 " ++ model ++ " 请求失败: " ++ err))
    | none, [] => .panicked "invalid memory address or nil pointer dereference"

/-! ## Model commands and card handlers (`event_model_action.go`, `card_model_action.go`) -/

/-- Calls a handler makes on its collaborators, in order.  `CompletionsWithModel`
is always called with the temperature `openai.Balance`. -/
inductive Call
  | replyMsg (msg : String)
  | replyCard (card : Card)
  | CompletionsWithModel (msg : List Messages) (model : String)
  | SetCurrentModel (modelID : String)
  | SetCompareMode (enabled : Bool)
deriving DecidableEq, Repr

/-- What the session cache holds for one session, with the log of the calls made. -/
structure Session where
  currentModel : String
  compareMode : Bool
  msg : List Messages
  log : List Call
deriving DecidableEq, Repr

/-- What a call of `gpt.CompletionsWithModel(msg, openai.Balance, model)` does
for the message list and the model it is given: how the call ends. -/
abbrev Completer := List Messages → String → CompletionOutcome

/-- How a function or a goroutine ends: it returns a value, or a panic leaves it
(none of the handlers here has a `recover`). -/
inductive Ended (α : Type)
  | returned (value : α)
  | panicked (what : String)
deriving DecidableEq, Repr

/-- `replyMsg(ctx, msg, msgId)`; its result is dropped by every caller here. -/
def replyMsg (msg : String) (s : Session) : Session :=
  { s with log := s.log ++ [.replyMsg msg] }

/-- `replyCard(ctx, msgId, card)`; its result is dropped by every caller here. -/
def replyCard (card : Card) (s : Session) : Session :=
  { s with log := s.log ++ [.replyCard card] }

/-- `services.GetSessionCache().SetCurrentModel(sessionId, modelID)`. -/
def SetCurrentModel (modelID : String) (s : Session) : Session :=
  { s with currentModel := modelID, log := s.log ++ [.SetCurrentModel modelID] }

/-- `services.GetSessionCache().SetCompareMode(sessionId, enabled)`. -/
def SetCompareMode (enabled : Bool) (s : Session) : Session :=
  { s with compareMode := enabled, log := s.log ++ [.SetCompareMode enabled] }

/-- The text of `sendModelHelp`. -/
def modelHelpMsg : String :=
  "🤖 **模型切换帮助**\n\n**使用方法:**\n• `/model <模型名>` - 切换到指定模型\n" ++
  "• `/model gpt-4o` - 切换到GPT-4o\n• `/model qwen` - 模糊搜索包含\"qwen\"的模型\n\n" ++
  "**查看模型:**\n• `/models` - 查看所有支持的模型\n• `/current` - 查看当前使用的模型\n\n" ++
  "**多模型对比:**\n• `/compare <问题>` - 让所有模型回答同一问题"

/-- The text of `sendCompareHelp`. -/
def compareHelpMsg : String :=
  "🤖 **多模型对比帮助**\n\n**使用方法:**\n• `/compare <问题>` - 让所有模型回答同一问题\n\n" ++
  "**示例:**\n• `/compare 什么是人工智能?`\n• `/compare 写一个Python排序函数`\n\n" ++
  "**注意:** 多模型对比会依次调用所有支持的模型，可能需要较长时间。"

/-- `sendModelHelp`. -/
def sendModelHelp (s : Session) : Session := replyMsg modelHelpMsg s

/-- `sendCompareHelp`. -/
def sendCompareHelp (s : Session) : Session := replyMsg compareHelpMsg s

/-- `sendModelNotFound`. -/
def sendModelNotFound (query : String) (s : Session) : Session :=
  replyMsg ("❌ 未找到模型: " ++ query ++ "\n\n使用 `/models` 查看所有支持的模型") s

/-- The tag added after the name of a free model. -/
def freeTag (model : ModelInfo) : String := if model.IsFree then " 🆓" else ""

/-- `sendModelSearchResults`. -/
def sendModelSearchResults (models : List ModelInfo) (query : String) (s : Session) : Session :=
  let head := "🔍 找到多个匹配 \"" ++ query ++ "\" 的模型:\n\n"
  let body := models.foldl (fun acc model =>
    acc ++ "• `/model " ++ model.ID ++ "` - " ++ model.Name ++ freeTag model ++ "\n") head
  replyMsg (body ++ "\n请使用完整的模型ID进行切换。") s

/-- `handleModelSwitch`; the returned boolean, always true, is dropped by `Execute`. -/
def handleModelSwitch (lower : Char → Char) (order : List ModelInfo) (cmd : String)
    (s : Session) : Session :=
  match Fields cmd with
  | _ :: modelQuery :: _ =>
    match GetModelInfo modelQuery with
    | some model =>
      replyMsg ("✅ 已切换到模型: " ++ model.Name ++ "\n\n" ++ model.Description)
        (SetCompareMode false (SetCurrentModel model.ID s))
    | none =>
      match SearchModels lower order modelQuery with
      | [model] =>
        replyMsg ("✅ 已切换到模型: " ++ model.Name ++ "\n\n" ++ model.Description)
          (SetCompareMode false (SetCurrentModel model.ID s))
      | [] => sendModelNotFound modelQuery s
      | searchResults => sendModelSearchResults searchResults modelQuery s
  | _ => sendModelHelp s

/-- `callModelForComparison`: the text it returns for what its call does; a
panic of the call leaves it. -/
def callModelForComparison (gpt : Completer) (query modelID : String) : Ended String :=
  match gpt [{ Role := "user", Content := query }] modelID with
  | .returned _ (some err) => .returned ("调用失败: " ++ err)
  | .returned response none => .returned response.Content
  | .panicked what => .panicked what

/-- The end marker `handleModelCompare` adds to the last response. -/
def compareDoneMark : String := "\n\n✅ 多模型对比完成"

/-- The loop of `handleModelCompare` over the models left, each with its index,
for `n` models in all: the session when the loop ends, and how it ends. -/
def compareLoop (gpt : Completer) (query : String) (n : Nat) :
    List (Nat × ModelInfo) → Session → Session × Ended Unit
  | [], s => (s, .returned ())
  | im :: rest, s =>
    let s1 := { s with log := s.log ++
      [.CompletionsWithModel [{ Role := "user", Content := query }] im.2.ID] }
    match callModelForComparison gpt query im.2.ID with
    | .panicked what => (s1, .panicked what)
    | .returned modelResponse =>
      let responseMsg := "【" ++ im.2.Name ++ "】\n" ++ modelResponse ++ "\n\n---"
      let responseMsg := if im.1 = n - 1 then responseMsg ++ compareDoneMark else responseMsg
      compareLoop gpt query n rest (replyMsg responseMsg s1)

/-- `handleModelCompare`, for the iteration order `order` of `GetAllModels`: the
session when it ends, and the boolean it returns (or the panic that leaves it). -/
def handleModelCompare (order : List ModelInfo) (gpt : Completer) (cmd : String)
    (s : Session) : Session × Ended Bool :=
  match SplitN cmd with
  | _ :: query :: _ =>
    let s1 := SetCompareMode true s
    let allModels := GetAllModels order
    let s2 := replyMsg ("🤖 多模型对比模式\n问题: " ++ query ++ "\n\n正在请求各个模型的回答...") s1
    match compareLoop gpt query allModels.length allModels.enum s2 with
    | (s3, .panicked what) => (s3, .panicked what)
    | (s3, .returned _) => (SetCompareMode false s3, .returned true)
  | _ => (sendCompareHelp s, .returned true)

/-- `handleModelList`. -/
def handleModelList (s : Session) : Session :=
  let categories := ["通用", "编程", "分析", "长文本", "免费"]
  let text := categories.foldl (fun acc category =>
    let models := GetModelsByCategory category
    if models.length > 0 then
      models.foldl (fun acc model =>
        acc ++ "• " ++ model.Name ++ freeTag model ++ " - " ++ model.Description ++ "\n")
        (acc ++ "**" ++ category ++ "类**\n") ++ "\n"
    else acc) "🤖 **支持的模型列表**\n\n"
  replyMsg (text ++ "**使用方法:**\n• `/model <模型名>` - 切换到指定模型\n" ++
    "• `/compare <问题>` - 多模型对比\n• `/current` - 查看当前模型") s

/-- `handleCurrentModel`. -/
def handleCurrentModel (s : Session) : Session :=
  let msg :=
    if s.compareMode then "🤖 当前处于多模型对比模式"
    else match GetModelInfo s.currentModel with
      | some model =>
        "🤖 **当前模型**: " ++ model.Name ++ freeTag model ++ "\n\n" ++ model.Description ++
          "\n\n**能力**: " ++ ", ".intercalate model.Capabilities ++ "\n**分类**: " ++ model.Category
      | none => "🤖 **当前模型**: " ++ s.currentModel ++ " (未知模型)"
  replyMsg msg s

/-- `ModelAction.Execute` on the parsed message `cmd`: the session afterwards and
the boolean returned to the action chain (or the panic that leaves it). -/
def ModelAction.Execute (lower : Char → Char) (order : List ModelInfo) (gpt : Completer)
    (cmd : String) (s : Session) : Session × Ended Bool :=
  if HasPrefix cmd "/model" || HasPrefix cmd "/模型" then
    (handleModelSwitch lower order cmd s, .returned false)
  else if HasPrefix cmd "/compare" || HasPrefix cmd "/对比" then
    match handleModelCompare order gpt cmd s with
    | (s1, .panicked what) => (s1, .panicked what)
    | (s1, .returned _) => (s1, .returned false)
  else if HasPrefix cmd "/models" || HasPrefix cmd "/模型列表" then
    (handleModelList s, .returned false)
  else if HasPrefix cmd "/current" || HasPrefix cmd "/当前模型" then
    (handleCurrentModel s, .returned false)
  else (s, .returned true)

/-- `CardKind` of the "main models" button. -/
def AllModelsKind : String := "all_models"

/-- The question the card handlers ask again: the content of the last message
with role "user", or the default question when there is none or it is empty. -/
def userQuestion (msg : List Messages) : String :=
  let found := match msg.reverse.find? (fun m => m.Role == "user") with
    | some m => m.Content
    | none => ""
  if found = "" then "请介绍一下你自己" else found

/-- An entry of `mainModels` in `NewAllModelsCardHandler`. -/
structure MainModel where
  ID : String
  DisplayName : String
  Emoji : String
deriving DecidableEq, Repr

/-- The list `mainModels` of `NewAllModelsCardHandler`. -/
def mainModels : List MainModel :=
  [{ ID := "openai/gpt-4o", DisplayName := "GPT-4o", Emoji := "🧠" },
   { ID := "anthropic/claude-sonnet-4", DisplayName := "Claude-Sonnet-4", Emoji := "🎭" },
   { ID := "deepseek/deepseek-chat-v3-0324:free", DisplayName := "DeepSeek-V3", Emoji := "🔍" }]

/-- The card `NewAllModelsCardHandler` builds for one model from what its call
returned: the message and the error (`none` for nil). -/
def modelCard (question : String) (model : MainModel) (completions : Messages)
    (err : Option String) : Card :=
  let response := match err with
    | some err => "❌ 调用失败: " ++ err
    | none => completions.Content
  let cardColor := match err with
    | some _ => "red"
    | none => "green"
  { title := model.Emoji ++ " " ++ model.DisplayName ++ " 的回答", template := cardColor,
    body := withMainMd ("**问题:** " ++ question ++ "\n\n**回答:**\n" ++ response),
    modelSwitchButtons := true,
    note := "来自 " ++ model.DisplayName ++ " 的回答，点击按钮可切换其他模型" }

/-- The loop over `mainModels` in the goroutine of `NewAllModelsCardHandler`: the
session when the loop ends, and how it ends. -/
def allModelsLoop (gpt : Completer) (question : String) :
    List MainModel → Session → Session × Ended Unit
  | [], s => (s, .returned ())
  | model :: rest, s =>
    let newMsg : List Messages := [{ Role := "user", Content := question }]
    let s1 := { s with log := s.log ++ [.CompletionsWithModel newMsg model.ID] }
    match gpt newMsg model.ID with
    | .panicked what => (s1, .panicked what)
    | .returned completions err =>
      allModelsLoop gpt question rest (replyCard (modelCard question model completions err) s1)

/-- What `NewAllModelsCardHandler` has done once its goroutine has ended: the
card returned (`none` for `ErrNextHandler`), the session then, and how the
goroutine ended (`returned` also when none was started).  The goroutine has no
`recover`, so a panic in it ends the process. -/
structure AllModelsResult where
  returned : Option Card
  session : Session
  goroutine : Ended Unit
deriving DecidableEq, Repr

/-- `NewAllModelsCardHandler` on a card message of kind `kind`. -/
def NewAllModelsCardHandler (gpt : Completer) (kind : String) (s : Session) :
    AllModelsResult :=
  if kind ≠ AllModelsKind then { returned := none, session := s, goroutine := .returned () }
  else
    let question := userQuestion s.msg
    let s1 := SetCompareMode true s
    let initialCard : Card :=
      { title := "🚀 主流模型回答", template := "blue",
        body := withMainMd ("**问题:** " ++ question ++
          "\n\n⏳ 正在请求GPT、Claude、DeepSeek三个主流模型回答，将分别发送3个卡片..."),
        modelSwitchButtons := false, note := "请稍等，正在获取各模型回答" }
    match allModelsLoop gpt question mainModels s1 with
    | (s2, .panicked what) =>
      { returned := some initialCard, session := s2, goroutine := .panicked what }
    | (s2, .returned _) =>
      { returned := some initialCard, session := SetCompareMode false s2,
        goroutine := .returned () }

/-- The catalog entry of GPT-4o. -/
def gpt4o : ModelInfo :=
  { ID := "openai/gpt-4o", Name := "GPT-4o", Provider := "openai",
    Description := "OpenAI最新的多模态模型，支持文本、图像和语音",
    MaxTokens := 128000, IsFree := false,
    Capabilities := ["text", "vision", "reasoning"], Category := "通用" }

/-- A session with some selected model and compare mode on. -/
def sampleSession : Session :=
  { currentModel := "qwen/qwen3-coder:free", compareMode := true,
    msg := sampleHistory, log := [] }

/-- A completer that fails for GPT-4.1 and answers "42" for every other model. -/
def sampleCompleter : Completer := fun _ model =>
  if model = "openai/gpt-4.1" then .returned { Role := "", Content := "" } (some "timeout")
  else .returned { Role := "assistant", Content := "42" } none

/-- The service when every request but the one for GPT-4o comes back with no
error and no choice (and GPT-4o answers "42"): `CompletionsWithModel` itself on
these responses. -/
def emptyChoicesCompleter : Completer := fun _ model =>
  CompletionsWithModel "https://openrouter.ai/api/v1/chat/completions" model none
    (if model = "openai/gpt-4o" then [{ Role := "assistant", Content := "42" }] else [])

/-! ## `decryptFeishuData` (`main.go`) -/

/-- The library functions `decryptFeishuData` calls: `sha256.Sum256`,
`base64.StdEncoding.DecodeString`, and decryption of whole blocks by
`cipher.NewCBCDecrypter(block, iv).CryptBlocks` for the AES key `key`.  Bytes
are natural numbers. -/
structure CryptoLib where
  sha256 : String → List Nat
  sha256_length : ∀ s, (sha256 s).length = 32
  decodeString : String → Except String (List Nat)
  cryptBlocks : (key iv src : List Nat) → List Nat
  cryptBlocks_length : ∀ key iv src, (cryptBlocks key iv src).length = src.length

/-- How a call of `decryptFeishuData` ends: it returns a byte slice (`none` for
nil) and an error (`none` for nil), or it panics. -/
inductive DecryptOutcome
  | returned (plain : Option (List Nat)) (err : Option String)
  | panicked (what : String)
deriving DecidableEq, Repr

/-- Step 5 of `decryptFeishuData`: `padding := int(decrypted[len(decrypted)-1])`,
then `decrypted[:len(decrypted)-padding]`. -/
def removePadding (decrypted : List Nat) : DecryptOutcome :=
  match decrypted.getLast? with
  | none => .panicked "index out of range [-1]"
  | some padding =>
    if decrypted.length < padding then .panicked "slice bounds out of range"
    else .returned (some (decrypted.take (decrypted.length - padding))) none

/-- `decryptFeishuData`. -/
def decryptFeishuData (lib : CryptoLib) (encryptKey encryptStr : String) : DecryptOutcome :=
  let key := lib.sha256 encryptKey
  match lib.decodeString encryptStr with
  | .error err => .returned none (some err)
  | .ok data =>
    -- `err` is nil here
    if data.length < 16 then .returned none none
    else
      let iv := data.take 16
      let encrypted := data.drop 16
      if key.length ≠ 16 ∧ key.length ≠ 24 ∧ key.length ≠ 32 then
        .returned none (some "crypto/aes: invalid key size")
      else if encrypted.length % 16 ≠ 0 then
        .panicked "crypto/cipher: input not full blocks"
      else removePadding (lib.cryptBlocks key iv encrypted)

/-- A stand-in library for concrete inputs: the hash is 32 zero bytes, the
decoder takes the character codes, and the block decryption is the identity. -/
def sampleLib : CryptoLib :=
  { sha256 := fun _ => List.replicate 32 0
    sha256_length := fun _ => by simp
    decodeString := fun s => .ok (s.data.map Char.toNat)
    cryptBlocks := fun _ _ src => src
    cryptBlocks_length := fun _ _ _ => rfl }

/-- Sixteen bytes for the IV, then "hello" padded to one block with eleven bytes 11. -/
def paddedHello : String :=
  "aaaaaaaaaaaaaaaahello\x0b\x0b\x0b\x0b\x0b\x0b\x0b\x0b\x0b\x0b\x0b"

/-! ## `handleCardCallback` (`main.go`) -/

/-- A JSON value as the handler sees it: a string, or anything else. -/
inductive JVal
  | str (s : String)
  | other (code : Nat)
deriving DecidableEq, Repr

/-- A decoded JSON object, `map[string]interface{}`: its members by key. -/
abbrev JObj := List (String × JVal)

/-- What `c.GetRawData()` and `json.Unmarshal(bodyBytes, &body)` leave. -/
inductive BodyRead
  | readError
  | invalidJSON
  | parsed (body : JObj)
deriving DecidableEq, Repr

/-- How the handler answers: `c.JSON(status, gin.H{key: value})`, the request
handed on to the SDK card handler, or a panic. -/
inductive Response
  | json (status : Nat) (key : String) (value : JVal)
  | sdk
  | panicked (what : String)
deriving DecidableEq, Repr

/-- The URL-verification block, the same code on the decrypted body (lines
99-117) and on the plain body (lines 121-137): `none` when it falls through. -/
def urlVerification (verificationToken : String) (body : JObj) : Option Response :=
  if body.lookup "type" = some (.str "url_verification") then
    let challenge : Option Response :=
      match body.lookup "challenge" with
      | some challenge => some (.json 200 "challenge" challenge)
      | none => none
    match body.lookup "token" with
    | some token =>
      if token ≠ .str verificationToken then some (.json 401 "error" (.str "Invalid token"))
      else challenge
    | none => challenge
  else none

/-- `handleCardCallback`, for the configured verification token; `decrypt` is
`decryptFeishuData(config.FeishuAppEncryptKey, ·)` and `unmarshal` is
`json.Unmarshal` on the decrypted bytes. -/
def handleCardCallback (verificationToken : String) (decrypt : String → DecryptOutcome)
    (unmarshal : List Nat → Option JObj) (read : BodyRead) : Response :=
  match read with
  | .readError => .json 400 "error" (.str "Failed to read body")
  | .invalidJSON => .json 400 "error" (.str "Invalid JSON")
  | .parsed body =>
    let plain : Response :=
      match urlVerification verificationToken body with
      | some response => response
      | none => .sdk
    match body.lookup "encrypt" with
    | some (.other _) => .panicked "interface conversion: interface is not string"
    | some (.str encryptStr) =>
      match decrypt encryptStr with
      | .panicked what => .panicked what
      | .returned _ (some _) => .json 400 "error" (.str "Decrypt failed")
      | .returned decrypted none =>
        match unmarshal (decrypted.getD []) with
        | none => .json 400 "error" (.str "Invalid decrypted data")
        | some decryptedBody =>
          match urlVerification verificationToken decryptedBody with
          | some response => response
          | none => plain
    | none => plain

/-! ## `NewModelSwitchCardHandler` (`card_model_action.go`) -/

/-- `CardKind` of the model buttons. -/
def ModelSwitchKind : String := "model_switch"

/-- A card with several body elements: header, the bodies of its `withMainMd`
elements in order, the message handed to `withMainText` (if any), buttons, note. -/
structure CardDoc where
  title : String
  template : String
  markdown : List String
  mainText : Option String
  modelSwitchButtons : Bool
  note : String
deriving DecidableEq, Repr

/-- Errors a card handler returns. -/
inductive HandlerError
  | ErrNextHandler
  | invalidModelID
deriving DecidableEq, Repr

/-- What `NewModelSwitchCardHandler` has done once its goroutine has ended: the
card or error returned, the session with the calls logged, the card its
goroutine replied with, and how the goroutine ended (`returned` also when none
was started).  The goroutine has no `recover`. -/
structure SwitchResult where
  returned : Except HandlerError CardDoc
  session : Session
  replied : Option CardDoc
  goroutine : Ended Unit

/-- `NewModelSwitchCardHandler` on a card message of kind `kind` whose value is
the string `value` (`none` when it is not a string). -/
def NewModelSwitchCardHandler (gpt : Completer) (kind : String) (value : Option String)
    (s : Session) : SwitchResult :=
  if kind ≠ ModelSwitchKind then
    { returned := .error .ErrNextHandler, session := s, replied := none,
      goroutine := .returned () }
  else
    match value with
    | none =>
      { returned := .error .invalidModelID, session := s, replied := none,
        goroutine := .returned () }
    | some modelID =>
      let s1 := SetCompareMode false (SetCurrentModel modelID s)
      let modelName := match GetModelInfo modelID with
        | some model => model.Name
        | none => modelID
      let question := userQuestion s1.msg
      let processingCard : CardDoc :=
        { title := "🤖 正在使用 " ++ modelName ++ " 回答", template := "blue",
          markdown := [withMainMd ("**问题:** " ++ question ++ "\n\n⏳ 正在思考中，请稍候...")],
          mainText := none, modelSwitchButtons := false, note := "请稍等，正在获取回答" }
      let newMsg : List Messages := [{ Role := "user", Content := question }]
      let s2 := { s1 with log := s1.log ++ [.CompletionsWithModel newMsg modelID] }
      match gpt newMsg modelID with
      | .panicked what =>
        { returned := .ok processingCard, session := s2, replied := none,
          goroutine := .panicked what }
      | .returned _ (some err) =>
        { returned := .ok processingCard, session := s2, goroutine := .returned (),
          replied := some
            { title := "❌ 模型切换错误", template := "red", markdown := [],
              mainText := some ("切换到 " ++ modelName ++ " 时出错: " ++ err),
              modelSwitchButtons := true, note := "请稍后重试或选择其他模型" } }
      | .returned completions none =>
        { returned := .ok processingCard, session := s2, goroutine := .returned (),
          replied := some
            { title := "🤖 " ++ modelName ++ " 的回答", template := "green",
              markdown := [withMainMd ("**问题:** " ++ question), withMainMd completions.Content],
              mainText := none, modelSwitchButtons := true,
              note := "点击按钮可切换其他模型回答" } }

/-- The message lists of the `CompletionsWithModel` calls in a log, in order. -/
def completionMsgs (log : List Call) : List (List Messages) :=
  log.filterMap (fun c => match c with
    | .CompletionsWithModel msg _ => some msg
    | _ => none)

/-- A stored history whose last user message is followed by an assistant message. -/
def twoQuestions : List Messages :=
  [{ Role := "user", Content := "first" }, { Role := "assistant", Content := "one" },
   { Role := "user", Content := "second" }, { Role := "assistant", Content := "two" }]

/-! ## Case folding in `SearchModels` -/

/-- Spec wording, "the field contains the keyword ignoring letter case": some
run of consecutive characters of the field agrees with the keyword once both
are mapped by the case mapping `lower`. -/
def ContainsIgnoringCase (lower : Char → Char) (field keyword : String) : Prop :=
  ∃ front mid back : List Char,
    field.data = front ++ mid ++ back ∧ mid.map lower = keyword.data.map lower

/-- The catalog entry `google/gemini-2.5-pro`. -/
def geminiPro : ModelInfo :=
  { ID := "google/gemini-2.5-pro", Name := "Gemini 2.5 Pro", Provider := "google",
    Description := "Google最新的大型语言模型，性能卓越",
    MaxTokens := 1000000, IsFree := false,
    Capabilities := ["text", "vision", "reasoning"], Category := "通用" }

/-- The catalog entry `moonshot/kimi-k2-0711-preview`. -/
def kimiK2 : ModelInfo :=
  { ID := "moonshot/kimi-k2-0711-preview", Name := "Kimi K2 (免费)", Provider := "moonshot",
    Description := "月之暗面Kimi K2模型，OpenRouter免费版本",
    MaxTokens := 128000, IsFree := true,
    Capabilities := ["text", "long_context", "reasoning"], Category := "长文本" }

/-- A case mapping that takes the Kelvin sign U+212A to `k`, as `unicode.ToLower`
does, and is the ASCII case mapping on every other character. -/
def kelvinLower (c : Char) : Char := if c.toNat = 0x212A then 'k' else c.toLower

/-- The command `/model` with the query "Kimi" whose first letter is the Kelvin
sign U+212A. -/
def kelvinCommand : String := "/model " ++ String.mk [Char.ofNat 0x212A, 'i', 'm', 'i']

/-! ## Lemmas -/

theorem concatFrags_snoc (l : List String) (f : String) :
    concatFrags (l ++ [f]) = concatFrags l ++ f := by
  simp [concatFrags, List.foldl_append]

theorem concatFrags_take_succ (l : List String) (k : Nat) (f : String)
    (h : l[k]? = some f) :
    concatFrags (l.take (k + 1)) = concatFrags (l.take k) ++ f := by
  have hk : l.take (k + 1) = l.take k ++ [f] := by
    rw [List.take_succ]
    simp [h]
  rw [hk, concatFrags_snoc]

theorem stopTimer_ne_armed (t : TimerState) : stopTimer t ≠ .armed := by
  cases t <;> simp [stopTimer]

theorem stopTimer_eq_fired (t : TimerState) : stopTimer t = .fired ↔ t = .fired := by
  cases t <;> simp [stopTimer]

theorem stopTimer_eq_stopped (t : TimerState) : stopTimer t = .stopped ↔ t ≠ .fired := by
  cases t <;> simp [stopTimer]

/-- Invariants are carried along every run. -/
theorem run_preserves (c : Cfg) (P : St → Prop)
    (hstep : ∀ s e s', P s → step c s e = some s' → P s') :
    ∀ (es : List Ev) (s s' : St), P s → run c s es = some s' → P s' := by
  intro es
  induction es with
  | nil =>
    intro s s' hP h
    simp [run] at h
    exact h ▸ hP
  | cons e es ih =>
    intro s s' hP h
    simp only [run, Option.bind_eq_some] at h
    obtain ⟨m, hm, hrest⟩ := h
    exact ih m s' (hstep s e m hP hm) hrest

theorem run_append (c : Cfg) (es1 es2 : List Ev) (s : St) :
    run c s (es1 ++ es2) = (run c s es1).bind (fun m => run c m es2) := by
  induction es1 generalizing s with
  | nil => simp [run]
  | cons e es ih =>
    simp only [List.cons_append, run]
    cases step c s e with
    | none => simp
    | some m => simp [ih]

theorem timerInv_init (history : List Messages) : TimerInv (init history) := by
  refine ⟨?_, ?_, ?_, ?_⟩ <;> simp [init, noContentDuration]

theorem timerInv_step (c : Cfg) (s : St) (e : Ev) (s' : St)
    (hP : TimerInv s) (h : step c s e = some s') : TimerInv s' := by
  obtain ⟨h1, h2, h3, h4⟩ := hP
  cases e <;> simp only [step] at h <;> split_ifs at h <;> (try split at h) <;>
    (try cases h) <;>
    (refine ⟨?_, ?_, ?_, ?_⟩ <;>
      simp_all [stopTimer_ne_armed, stopTimer_eq_fired, stopTimer_eq_stopped])

theorem pubLoopHead_ne_pushing (b : Bool) (content : String) :
    pubLoopHead b ≠ .pushing content := by
  cases b <;> simp [pubLoopHead]

theorem succ_le_of_getElem? (l : List String) (k : Nat) (f : String) (h : l[k]? = some f) :
    k + 1 ≤ l.length := by
  have := List.getElem?_eq_some.mp h
  obtain ⟨hk, _⟩ := this
  omega

theorem answerInv_init (c : Cfg) (history : List Messages) : AnswerInv c (init history) := by
  refine ⟨?_, ?_, ?_, ?_, ?_⟩ <;> simp [init, concatFrags]

set_option maxHeartbeats 1000000 in
theorem answerInv_step (c : Cfg) (s : St) (e : Ev) (s' : St)
    (hP : AnswerInv c s) (h : step c s e = some s') : AnswerInv c s' := by
  obtain ⟨h1, h2, h3, h4, h5⟩ := hP
  cases e <;> simp only [step] at h <;> split_ifs at h <;> (try split at h) <;>
    (try cases h) <;>
    (refine ⟨?_, ?_, ?_, ?_, ?_⟩ <;>
      simp_all [pubLoopHead_ne_pushing] <;> try omega)
  all_goals first
    | exact (concatFrags_take_succ _ _ _ (by assumption)).symm
    | exact succ_le_of_getElem? _ _ _ (by assumption)
    | exact ⟨_, by assumption, rfl⟩
    | (simp only [or_imp, forall_and, forall_eq, PartialOk, and_true]
       first | exact h5 | exact ⟨h5, by assumption⟩)

@[simp] theorem setMsgs_append (l1 l2 : List Effect) :
    setMsgs (l1 ++ l2) = setMsgs l1 ++ setMsgs l2 := by
  simp [setMsgs, List.filterMap_append]

@[simp] theorem finalMsgs_append (l1 l2 : List Effect) :
    finalMsgs (l1 ++ l2) = finalMsgs l1 ++ finalMsgs l2 := by
  simp [finalMsgs, List.filterMap_append]

@[simp] theorem setMsgs_nil : setMsgs [] = [] := rfl

@[simp] theorem finalMsgs_nil : finalMsgs [] = [] := rfl

@[simp] theorem setMsgs_cons (e : Effect) (l : List Effect) :
    setMsgs (e :: l) = (match e with
      | .SetMsg m => [m]
      | _ => []) ++ setMsgs l := by
  cases e <;> simp [setMsgs, List.filterMap_cons]

@[simp] theorem finalMsgs_cons (e : Effect) (l : List Effect) :
    finalMsgs (e :: l) = (match e with
      | .updateFinalCardWithSession m _ => [m]
      | _ => []) ++ finalMsgs l := by
  cases e <;> simp [finalMsgs, List.filterMap_cons]

theorem fired_step (c : Cfg) (s : St) (e : Ev) (s' : St)
    (h : step c s e = some s') (hf : s.noContentTimeout = .fired) : s'.noContentTimeout = .fired := by
  cases e <;> simp only [step] at h <;> split_ifs at h <;> (try split at h) <;>
    (try cases h) <;> simp_all [stopTimer_eq_fired]

theorem stopped_step (c : Cfg) (s : St) (e : Ev) (s' : St)
    (h : step c s e = some s') (hf : s.noContentTimeout = .stopped) : s'.noContentTimeout = .stopped := by
  cases e <;> simp only [step] at h <;> split_ifs at h <;> (try split at h) <;>
    (try cases h) <;> simp_all [stopTimer_eq_stopped]

theorem doneInv_init (c : Cfg) (history : List Messages) : DoneInv c history (init history) := by
  refine ⟨?_, ?_, ?_, ?_⟩ <;> simp [init]

set_option maxHeartbeats 1000000 in
theorem doneInv_step (c : Cfg) (history : List Messages) (s : St) (e : Ev) (s' : St)
    (hT : TimerInv s) (hA : AnswerInv c s)
    (hP : DoneInv c history s) (h : step c s e = some s') : DoneInv c history s' := by
  obtain ⟨h1, h2, h3, h4⟩ := hP
  have t4 := hT.cb_idle
  have a2 := hA.sent_le
  have a3 := hA.returned_all
  clear hT hA
  cases e <;> simp only [step] at h <;> split_ifs at h <;> (try split at h) <;>
    (try cases h) <;>
    (refine ⟨?_, ?_, ?_, ?_⟩ <;>
      simp_all [stopTimer_eq_fired, storedRecord] <;> try omega)
  intro hd
  rcases h1 hd with hf | hl
  · exact Or.inl hf
  · have := succ_le_of_getElem? _ _ _ (by assumption)
    omega

theorem normalInv_init (c : Cfg) (history : List Messages) : NormalInv c (init history) := by
  refine ⟨?_, ?_, ?_, ?_⟩ <;> simp [init]

set_option maxHeartbeats 1000000 in
theorem normalInv_step (c : Cfg) (history : List Messages) (s : St) (e : Ev) (s' : St)
    (hok : c.result = .ok) (hT : TimerInv s) (hA : AnswerInv c s) (hD : DoneInv c history s)
    (hP : s.noContentTimeout ≠ .fired → NormalInv c s) (h : step c s e = some s')
    (hnf' : s'.noContentTimeout ≠ .fired) : NormalInv c s' := by
  have hnf : s.noContentTimeout ≠ .fired := fun hf => hnf' (fired_step c s e s' h hf)
  obtain ⟨h1, h2, h3, h4⟩ := hP hnf
  have t4 := hT.cb_idle
  have a1 := hA.answer_eq
  have a3 := hA.returned_all
  have d1 := hD.closed_by
  have d2 := hD.coord_after_done
  have d3 := hD.stored
  clear hT hA hD hP hnf'
  cases e <;> simp only [step] at h <;> split_ifs at h <;> (try split at h) <;>
    (try cases h) <;>
    (refine ⟨?_, ?_, ?_, ?_⟩ <;> simp_all)

theorem inv_step (c : Cfg) (history : List Messages) (s : St) (e : Ev) (s' : St)
    (hI : Inv c history s) (h : step c s e = some s') : Inv c history s' :=
  ⟨timerInv_step c s e s' hI.timer h, answerInv_step c s e s' hI.answer h,
   doneInv_step c history s e s' hI.timer hI.answer hI.done h,
   fun hok hnf => normalInv_step c history s e s' hok hI.timer hI.answer hI.done
     (hI.normal hok) h hnf⟩

theorem inv_init (c : Cfg) (history : List Messages) : Inv c history (init history) :=
  ⟨timerInv_init history, answerInv_init c history, doneInv_init c history,
   fun _ _ => normalInv_init c history⟩

theorem inv_run (c : Cfg) (history : List Messages) (es : List Ev) (s s' : St)
    (hI : Inv c history s) (h : run c s es = some s') : Inv c history s' :=
  run_preserves c (Inv c history) (inv_step c history) es s s' hI h

theorem inv_reachable (c : Cfg) (history : List Messages) (es : List Ev) (s : St)
    (h : run c (init history) es = some s) : Inv c history s :=
  inv_run c history es (init history) s (inv_init c history) h

theorem stopped_run (c : Cfg) (es : List Ev) (s s' : St)
    (h : run c s es = some s') (hs : s.noContentTimeout = .stopped) : s'.noContentTimeout = .stopped :=
  run_preserves c (fun m => m.noContentTimeout = .stopped)
    (fun a e b ha hstep => stopped_step c a e b hstep ha) es s s' hs h

theorem fired_run (c : Cfg) (es : List Ev) (s s' : St)
    (h : run c s es = some s') (hs : s.noContentTimeout = .fired) : s'.noContentTimeout = .fired :=
  run_preserves c (fun m => m.noContentTimeout = .fired)
    (fun a e b ha hstep => fired_step c a e b hstep ha) es s s' hs h

theorem arrivalGaps_other (g : Nat) (e : Ev) (es : List Ev)
    (h1 : ∀ dt, e ≠ .elapse dt) (h2 : e ≠ .recv) :
    arrivalGaps g (e :: es) = arrivalGaps g es := by
  cases e <;> first | rfl | exact absurd rfl h2 | exact absurd rfl (h1 _)

theorem arrivalGaps_head_ge (es : List Ev) :
    ∀ g, arrivalGaps g es ≠ [] → ∃ x ∈ arrivalGaps g es, g ≤ x := by
  induction es with
  | nil => intro g h; exact absurd rfl h
  | cons e es ih =>
    intro g h
    by_cases he : ∃ dt, e = .elapse dt
    · obtain ⟨dt, rfl⟩ := he
      simp only [arrivalGaps] at h ⊢
      obtain ⟨x, hx, hle⟩ := ih (g + dt) h
      exact ⟨x, hx, by omega⟩
    · by_cases hr : e = .recv
      · subst hr
        exact ⟨g, by simp [arrivalGaps], le_refl g⟩
      · have hne : ∀ dt, e ≠ .elapse dt := fun dt hd => he ⟨dt, hd⟩
        rw [arrivalGaps_other g e es hne hr] at h ⊢
        exact ih g h

theorem step_elapse (c : Cfg) (s m : St) (dt : Nat) (h : step c s (.elapse dt) = some m) :
    m.now = s.now + dt ∧ (s.now + dt < noContentDuration → m.noContentTimeout = s.noContentTimeout) := by
  simp only [step] at h
  split_ifs at h <;> cases h <;> refine ⟨rfl, fun hlt => ?_⟩ <;> first
    | rfl
    | (exfalso; simp_all; omega)

theorem step_recv (c : Cfg) (s m : St) (h : step c s .recv = some m) :
    m.noContentTimeout = stopTimer s.noContentTimeout := by
  simp only [step] at h
  split_ifs at h
  split at h <;> cases h
  rfl

theorem step_other (c : Cfg) (s m : St) (e : Ev) (h : step c s e = some m)
    (h1 : ∀ dt, e ≠ .elapse dt) (h2 : e ≠ .recv) :
    m.now = s.now ∧ (m.noContentTimeout = s.noContentTimeout ∨ m.noContentTimeout = stopTimer s.noContentTimeout) := by
  cases e <;> simp only [step] at h <;> split_ifs at h <;> (try split at h) <;>
    (try cases h) <;> simp_all

theorem gaps_stop_timer (c : Cfg) (es : List Ev) :
    ∀ (s s' : St) (g : Nat), run c s es = some s' → s.noContentTimeout = .armed → s.now = g →
      arrivalGaps g es ≠ [] → (∀ x ∈ arrivalGaps g es, x < noContentDuration) →
      s'.noContentTimeout = .stopped := by
  induction es with
  | nil => intro s s' g _ _ _ h; exact absurd rfl h
  | cons e es ih =>
    intro s s' g hrun harmed hnow hne hlt
    simp only [run, Option.bind_eq_some] at hrun
    obtain ⟨m, hm, hrest⟩ := hrun
    by_cases he : ∃ dt, e = .elapse dt
    · obtain ⟨dt, rfl⟩ := he
      simp only [arrivalGaps] at hne hlt
      obtain ⟨x, hx, hle⟩ := arrivalGaps_head_ge es (g + dt) hne
      have hx' := hlt x hx
      obtain ⟨hnow', htimer⟩ := step_elapse c s m dt hm
      exact ih m s' (g + dt) hrest (by rw [htimer (by omega)]; exact harmed)
        (by omega) hne hlt
    · by_cases hr : e = .recv
      · subst hr
        have := step_recv c s m hm
        rw [harmed] at this
        exact stopped_run c es m s' hrest this
      · have hne' : ∀ dt, e ≠ .elapse dt := fun dt hd => he ⟨dt, hd⟩
        rw [arrivalGaps_other g e es hne' hr] at hne hlt
        obtain ⟨hnow', htimer⟩ := step_other c s m e hm hne' hr
        rcases htimer with ht | ht
        · exact ih m s' g hrest (by rw [ht]; exact harmed) (by omega) hne hlt
        · rw [harmed] at ht
          exact stopped_run c es m s' hrest ht

theorem step_streamClosed (c : Cfg) (s m : St) (e : Ev) (h : step c s e = some m) :
    m.streamClosed = true ↔ s.streamClosed = true ∨ e = .coordFinal true := by
  cases e <;> simp only [step] at h <;> split_ifs at h <;> (try split at h) <;>
    (try cases h) <;> simp_all

theorem run_streamClosed (c : Cfg) (es : List Ev) :
    ∀ (s s' : St), run c s es = some s' →
      (s'.streamClosed = true ↔ s.streamClosed = true ∨ Ev.coordFinal true ∈ es) := by
  induction es with
  | nil =>
    intro s s' h
    simp [run] at h
    simp [h]
  | cons e es ih =>
    intro s s' h
    simp only [run, Option.bind_eq_some] at h
    obtain ⟨m, hm, hrest⟩ := h
    rw [ih m s' hrest, step_streamClosed c s m e hm, List.mem_cons]
    constructor
    · rintro ((h1 | h1) | h1)
      · exact Or.inl h1
      · exact Or.inr (Or.inl h1.symm)
      · exact Or.inr (Or.inr h1)
    · rintro (h1 | h1 | h1)
      · exact Or.inl (Or.inl h1)
      · exact Or.inl (Or.inr h1.symm)
      · exact Or.inr h1

theorem concatFrags_append (l1 l2 : List String) :
    concatFrags (l1 ++ l2) = concatFrags l1 ++ concatFrags l2 := by
  induction l2 using List.reverseRecOn with
  | nil => simp [concatFrags]
  | append_singleton l a ih =>
    rw [← List.append_assoc, concatFrags_snoc, concatFrags_snoc, ih, String.append_assoc]

theorem concatFrags_take_prefix (l : List String) (k : Nat) :
    ∃ t, concatFrags l = concatFrags (l.take k) ++ t :=
  ⟨concatFrags (l.drop k), by rw [← concatFrags_append, List.take_append_drop]⟩

theorem finalCards_eq_map (b : Bool) (l : List Effect) :
    finalCards b l = (finalMsgs l).map (fun m => finalCard m b) := by
  induction l with
  | nil => rfl
  | cons e l ih =>
    cases e <;> simp [finalCards, finalMsgs, List.filterMap_cons] at ih ⊢ <;> exact ih

theorem textCards_eq_map (b : Bool) (l : List Effect) :
    textCards b l = (textMsgs l).map (fun m => textCard m b) := by
  induction l with
  | nil => rfl
  | cons e l ih =>
    cases e <;> simp [textCards, textMsgs, List.filterMap_cons] at ih ⊢ <;> exact ih

theorem mem_textMsgs (l : List Effect) (m : String) (h : m ∈ textMsgs l) :
    ∃ ok, Effect.updateTextCard m ok ∈ l := by
  simp only [textMsgs, List.mem_filterMap] at h
  obtain ⟨e, he, hm⟩ := h
  cases e <;> simp at hm
  subst hm
  exact ⟨_, he⟩

theorem replaceEscapedNewlines_plain (l : List Char) (h : hasEscapedNewline l = false) :
    replaceEscapedNewlines l = l := by
  induction l with
  | nil => rfl
  | cons c l ih =>
    cases l with
    | nil => rfl
    | cons d rest =>
      simp only [hasEscapedNewline, Bool.or_eq_false_iff, decide_eq_false_iff_not] at h
      simp only [replaceEscapedNewlines, if_neg h.1]
      rw [ih h.2]

theorem dropWhile_head (p : Char → Bool) (l : List Char)
    (h : ∀ c ∈ l.head?, p c = false) : l.dropWhile p = l := by
  cases l with
  | nil => rfl
  | cons a t =>
    have := h a (by simp)
    simp [List.dropWhile, this]

theorem trimSpaceChars_plain (l : List Char)
    (h1 : ∀ c ∈ l.head?, isSpace c = false) (h2 : ∀ c ∈ l.getLast?, isSpace c = false) :
    trimSpaceChars l = l := by
  unfold trimSpaceChars
  rw [dropWhile_head isSpace l h1, dropWhile_head isSpace l.reverse, List.reverse_reverse]
  intro c hc
  rw [List.head?_reverse] at hc
  exact h2 c hc

theorem withMainMd_plain (s : String) (h : PlainMd s) : withMainMd s = s := by
  obtain ⟨h1, h2, h3⟩ := h
  have ht : TrimSpace s = s := by
    simp only [TrimSpace, trimSpaceChars_plain s.data h1 h2]
  simp only [withMainMd, ht, replaceEscapedNewlines_plain s.data h3]

theorem len_append (a b : String) : len (a ++ b) = len a + len b := by
  simp [len, String.utf8ByteSize, String.append]

theorem publishInv_init (history : List Messages) : PublishInv (init history) := by
  refine ⟨?_, ?_, ?_⟩ <;> simp [init]

theorem publishInv_step (c : Cfg) (s : St) (e : Ev) (s' : St)
    (hP : PublishInv s) (h : step c s e = some s') : PublishInv s' := by
  obtain ⟨h1, h2, h3⟩ := hP
  cases e <;> simp only [step] at h <;> split_ifs at h <;> (try split at h) <;>
    (try cases h) <;>
    (refine ⟨?_, ?_, ?_⟩ <;>
      simp_all [pubLoopHead_ne_pushing, len_append] <;> try omega)
  intro content hc
  have := h2 content hc
  omega

theorem publishInv_reachable (c : Cfg) (history : List Messages) (es : List Ev) (s : St)
    (h : run c (init history) es = some s) : PublishInv s :=
  run_preserves c PublishInv (publishInv_step c) es (init history) s (publishInv_init history) h

theorem fired_late_step (c : Cfg) (s : St) (e : Ev) (s' : St)
    (hP : s.noContentTimeout = .fired → noContentDuration ≤ s.now)
    (h : step c s e = some s') :
    s'.noContentTimeout = .fired → noContentDuration ≤ s'.now := by
  cases e with
  | elapse dt =>
    simp only [step] at h
    split_ifs at h
    all_goals
      (cases h; dsimp only; intro hf; rename_i hc hfire htick
       first | exact hfire.2 | exact Nat.le_trans (hP hf) (Nat.le_add_right _ _))
  | _ =>
    simp only [step] at h
    split_ifs at h <;> (try split at h) <;> (try cases h) <;> simp_all [stopTimer_eq_fired]

theorem fired_late (c : Cfg) (history : List Messages) (es : List Ev) (s : St)
    (h : run c (init history) es = some s) :
    s.noContentTimeout = .fired → noContentDuration ≤ s.now :=
  run_preserves c (fun s => s.noContentTimeout = .fired → noContentDuration ≤ s.now)
    (fun s e s' hP hs => fired_late_step c s e s' hP hs) es (init history) s
    (by simp [init]) h

theorem fires_at_step (c : Cfg) (s : St) (e : Ev) (s' : St) (h : step c s e = some s')
    (hnf : s.noContentTimeout ≠ .fired) (hf : s'.noContentTimeout = .fired) :
    ∃ dt, e = .elapse dt ∧ s.noContentTimeout = .armed ∧ noContentDuration ≤ s.now + dt := by
  cases e <;> simp only [step] at h <;> split_ifs at h <;> (try split at h) <;>
    (try cases h) <;> simp_all [stopTimer_eq_fired]

theorem hasPrefix_trans (s p q : String) (hq : HasPrefix p q = true)
    (hp : HasPrefix s p = true) : HasPrefix s q = true := by
  simp only [HasPrefix, List.isPrefixOf_iff_prefix] at *
  exact hq.trans hp

theorem execute_of_model_command (lower : Char → Char) (order : List ModelInfo)
    (gpt : Completer) (cmd : String)
    (s : Session) (h : (HasPrefix cmd "/model" || HasPrefix cmd "/模型") = true) :
    ModelAction.Execute lower order gpt cmd s =
      (handleModelSwitch lower order cmd s, .returned false) := by
  simp only [ModelAction.Execute, h, if_true]

theorem string_append_empty (a : String) : a ++ "" = a := by
  apply String.ext
  simp

theorem compareLoop_returns (gpt : Completer) (question : String) (n : Nat)
    (calls : Nat × ModelInfo → List Call)
    (hcalls : ∀ im, calls im =
      [.CompletionsWithModel [{ Role := "user", Content := question }] im.2.ID,
       .replyMsg ("【" ++ im.2.Name ++ "】\n" ++
         (match gpt [{ Role := "user", Content := question }] im.2.ID with
          | .returned _ (some err) => "调用失败: " ++ err
          | .returned response none => response.Content
          | .panicked _ => "") ++ "\n\n---" ++
         (if im.1 + 1 = n then "\n\n✅ 多模型对比完成" else ""))])
    (hn : 0 < n) (l : List (Nat × ModelInfo)) :
    ∀ s : Session,
      (∀ im ∈ l, ∀ what, gpt [{ Role := "user", Content := question }] im.2.ID ≠
        .panicked what) →
      compareLoop gpt question n l s =
        ({ s with log := s.log ++ l.flatMap calls }, .returned ()) := by
  induction l with
  | nil => intro s _; simp [compareLoop]
  | cons im l ih =>
    intro s hl
    have him := hl im (List.mem_cons_self _ _)
    have hlast : im.1 = n - 1 ↔ im.1 + 1 = n := by omega
    simp only [compareLoop, callModelForComparison]
    rcases hg : gpt [{ Role := "user", Content := question }] im.2.ID with ⟨resp, _ | err⟩ | what
    · simp only []
      rw [ih _ (fun x hx => hl x (List.mem_cons_of_mem _ hx))]
      simp only [replyMsg, List.flatMap_cons, hcalls im, hg, hlast, compareDoneMark]
      split_ifs <;> simp [string_append_empty]
    · simp only []
      rw [ih _ (fun x hx => hl x (List.mem_cons_of_mem _ hx))]
      simp only [replyMsg, List.flatMap_cons, hcalls im, hg, hlast, compareDoneMark]
      split_ifs <;> simp [string_append_empty]
    · exact absurd hg (him what)

theorem compareLoop_panics (gpt : Completer) (question : String) (n : Nat)
    (calls : Nat × ModelInfo → List Call)
    (hcalls : ∀ im, calls im =
      [.CompletionsWithModel [{ Role := "user", Content := question }] im.2.ID,
       .replyMsg ("【" ++ im.2.Name ++ "】\n" ++
         (match gpt [{ Role := "user", Content := question }] im.2.ID with
          | .returned _ (some err) => "调用失败: " ++ err
          | .returned response none => response.Content
          | .panicked _ => "") ++ "\n\n---" ++
         (if im.1 + 1 = n then "\n\n✅ 多模型对比完成" else ""))])
    (hn : 0 < n) (front back : List (Nat × ModelInfo)) (im : Nat × ModelInfo) (what : String)
    (hfront : ∀ x ∈ front, ∀ what, gpt [{ Role := "user", Content := question }] x.2.ID ≠
      .panicked what)
    (him : gpt [{ Role := "user", Content := question }] im.2.ID = .panicked what) :
    ∀ s : Session,
      compareLoop gpt question n (front ++ im :: back) s =
        ({ s with log := s.log ++ front.flatMap calls ++
            [.CompletionsWithModel [{ Role := "user", Content := question }] im.2.ID] },
          .panicked what) := by
  induction front with
  | nil =>
    intro s
    simp [compareLoop, callModelForComparison, him]
  | cons x front ih =>
    intro s
    have hx := hfront x (List.mem_cons_self _ _)
    have hlast : x.1 = n - 1 ↔ x.1 + 1 = n := by omega
    have ih2 := ih (fun y hy => hfront y (List.mem_cons_of_mem _ hy))
    simp only [List.cons_append, compareLoop, callModelForComparison]
    rcases hg : gpt [{ Role := "user", Content := question }] x.2.ID with ⟨resp, _ | err⟩ | w
    · simp only [List.append_eq]
      rw [ih2]
      simp only [replyMsg, List.flatMap_cons, hcalls x, hg, hlast, compareDoneMark]
      split_ifs <;> simp [string_append_empty]
    · simp only [List.append_eq]
      rw [ih2]
      simp only [replyMsg, List.flatMap_cons, hcalls x, hg, hlast, compareDoneMark]
      split_ifs <;> simp [string_append_empty]
    · exact absurd hg (hx w)

theorem splitN_command (head rest : String) (h : ' ' ∉ head.data) :
    SplitN (head ++ " " ++ rest) = [head, rest] := by
  have key : ∀ l : List Char, ' ' ∉ l →
      cutAtSpace (l ++ ' ' :: rest.data) = some (l, rest.data) := by
    intro l
    induction l with
    | nil => intro _; simp [cutAtSpace]
    | cons c l ih =>
      intro hl
      simp only [List.mem_cons, not_or] at hl
      have hc : c ≠ ' ' := fun hc => hl.1 hc.symm
      simp [cutAtSpace, hc, ih hl.2]
  have hdata : (head ++ " " ++ rest).data = head.data ++ ' ' :: rest.data := by
    simp [String.data_append]
  simp only [SplitN, hdata, key head.data h]

theorem removePadding_append_replicate (x : List Nat) (p : Nat) (hp : 1 ≤ p) :
    removePadding (x ++ List.replicate p p) = .returned (some x) none := by
  obtain ⟨q, rfl⟩ : ∃ q, p = q + 1 := ⟨p - 1, by omega⟩
  have hlast : (x ++ List.replicate (q + 1) (q + 1)).getLast? = some (q + 1) := by
    rw [List.replicate_succ', ← List.append_assoc, List.getLast?_append]
    simp
  simp only [removePadding, hlast]
  have hlen : (x ++ List.replicate (q + 1) (q + 1)).length = x.length + (q + 1) := by simp
  rw [hlen]
  simp

theorem find_user_reverse (front back : List Messages) (m : Messages)
    (hm : m.Role = "user") (hback : ∀ x ∈ back, x.Role ≠ "user") :
    (front ++ m :: back).reverse.find? (fun x => x.Role == "user") = some m := by
  have hnone : back.reverse.find? (fun x => x.Role == "user") = none := by
    rw [List.find?_eq_none]
    intro x hx
    have := hback x (List.mem_reverse.mp hx)
    simpa using this
  simp [List.find?_append, hnone, hm]

theorem find_user_none (msg : List Messages) (h : ∀ x ∈ msg, x.Role ≠ "user") :
    msg.reverse.find? (fun x => x.Role == "user") = none := by
  rw [List.find?_eq_none]
  intro x hx
  have := h x (List.mem_reverse.mp hx)
  simpa using this

theorem contains_iff_consecutive (s substr : String) :
    Contains s substr = true ↔ substr.data <:+: s.data := by
  simp only [Contains, List.any_eq_true, List.mem_tails, List.isPrefixOf_iff_prefix,
    List.infix_iff_prefix_suffix]
  constructor
  · rintro ⟨t, ht, hp⟩
    exact ⟨t, hp, ht⟩
  · rintro ⟨t, hp, ht⟩
    exact ⟨t, ht, hp⟩

theorem contains_toLower_iff (lower : Char → Char) (field keyword : String) :
    Contains (ToLower lower field) (ToLower lower keyword) = true ↔
      ContainsIgnoringCase lower field keyword := by
  rw [contains_iff_consecutive]
  simp only [ToLower, ContainsIgnoringCase]
  constructor
  · rintro ⟨a, b, h⟩
    obtain ⟨l1, back, hf, h1, _⟩ := List.map_eq_append_iff.1 h.symm
    obtain ⟨front, mid, hl1, _, hmid⟩ := List.map_eq_append_iff.1 h1
    exact ⟨front, mid, back, by rw [hf, hl1], hmid⟩
  · rintro ⟨front, mid, back, hf, hmid⟩
    refine ⟨front.map lower, back.map lower, ?_⟩
    rw [hf, ← hmid]
    simp

theorem catalog_nodup : (SupportedModels.map Prod.snd).Nodup := by decide

theorem catalog_ids_are_keys :
    ∀ p ∈ SupportedModels, p.2.ID = p.1 := by decide

theorem lookup_mem {β : Type} (q : String) (m : β) :
    ∀ l : List (String × β), l.lookup q = some m → (q, m) ∈ l := by
  intro l
  induction l with
  | nil => simp
  | cons p rest ih =>
    obtain ⟨k, v⟩ := p
    intro h
    by_cases hk : q = k
    · subst hk
      simp [List.lookup] at h
      simp [h]
    · have hb : (q == k) = false := by simpa using hk
      simp only [List.lookup, hb] at h
      exact List.mem_cons_of_mem _ (ih h)

theorem getModelInfo_key (query : String) (model : ModelInfo)
    (h : GetModelInfo query = some model) :
    model.ID = query ∧ query ∈ SupportedModels.map Prod.fst := by
  have hm := lookup_mem query model SupportedModels h
  exact ⟨catalog_ids_are_keys _ hm, List.mem_map.2 ⟨_, hm, rfl⟩⟩

theorem order_id_key (order : List ModelInfo) (horder : IsIterationOrder order)
    (model : ModelInfo) (h : model ∈ order) : model.ID ∈ SupportedModels.map Prod.fst := by
  have hm : model ∈ SupportedModels.map Prod.snd := horder.mem_iff.1 h
  obtain ⟨p, hp, rfl⟩ := List.mem_map.1 hm
  exact List.mem_map.2 ⟨p, hp, (catalog_ids_are_keys p hp).symm⟩

theorem searchModels_subset (lower : Char → Char) (order : List ModelInfo) (keyword : String)
    (model : ModelInfo) (h : model ∈ SearchModels lower order keyword) : model ∈ order := by
  simp only [SearchModels] at h
  exact (List.mem_filter.1 h).1

theorem toLower_congr (f g : Char → Char) (s : String) (h : ∀ c ∈ s.data, f c = g c) :
    ToLower f s = ToLower g s := by
  simp only [ToLower]
  congr 1
  exact List.map_congr_left h

theorem toLower_not_ascii (c : Char) (h : 128 ≤ c.toNat) : c.toLower = c := by
  simp only [Char.toLower]
  split_ifs with hc
  · omega
  · rfl

theorem lowersCatalog_mem (lower : Char → Char) (h : LowersCatalog lower) (c : Char)
    (hc : c ∈ catalogChars) : lower c = Char.toLower c := by
  by_cases ha : c.toNat < 128
  · exact h.1 c ha
  · rw [h.2 c hc (by omega), toLower_not_ascii c (by omega)]

theorem searchModels_lowersCatalog (lower : Char → Char) (h : LowersCatalog lower)
    (order : List ModelInfo) (horder : IsIterationOrder order) (keyword : String)
    (hk : ∀ c ∈ keyword.data, c.toNat < 128) :
    SearchModels lower order keyword = SearchModels Char.toLower order keyword := by
  have hkey : ToLower lower keyword = ToLower Char.toLower keyword :=
    toLower_congr _ _ _ (fun c hc => h.1 c (hk c hc))
  simp only [SearchModels, hkey]
  apply List.filter_congr
  intro model hmodel
  have hm : model ∈ SupportedModels.map Prod.snd := horder.mem_iff.1 hmodel
  obtain ⟨p, hp, rfl⟩ := List.mem_map.1 hm
  have hchars : ∀ c, c ∈ p.2.Name.data ++ p.2.Description.data ++ p.2.Provider.data →
      lower c = Char.toLower c := by
    intro c hc
    apply lowersCatalog_mem lower h
    simp only [catalogChars, List.mem_flatMap]
    exact ⟨p, hp, hc⟩
  rw [toLower_congr lower Char.toLower p.2.Name (fun c hc => hchars c (by simp [hc])),
    toLower_congr lower Char.toLower p.2.Description (fun c hc => hchars c (by simp [hc])),
    toLower_congr lower Char.toLower p.2.Provider (fun c hc => hchars c (by simp [hc]))]

theorem allModelsLoop_returns (gpt : Completer) (question : String)
    (calls : MainModel → List Call)
    (hcalls : ∀ model, calls model =
      [.CompletionsWithModel [{ Role := "user", Content := question }] model.ID,
       .replyCard
         { title := model.Emoji ++ " " ++ model.DisplayName ++ " 的回答",
           template :=
             (match gpt [{ Role := "user", Content := question }] model.ID with
              | .returned _ (some _) => "red"
              | _ => "green"),
           body := withMainMd ("**问题:** " ++ question ++ "\n\n**回答:**\n" ++
             (match gpt [{ Role := "user", Content := question }] model.ID with
              | .returned _ (some err) => "❌ 调用失败: " ++ err
              | .returned completions none => completions.Content
              | .panicked _ => "")),
           modelSwitchButtons := true,
           note := "来自 " ++ model.DisplayName ++ " 的回答，点击按钮可切换其他模型" }])
    (l : List MainModel) :
    ∀ s : Session,
      (∀ model ∈ l, ∀ what, gpt [{ Role := "user", Content := question }] model.ID ≠
        .panicked what) →
      allModelsLoop gpt question l s =
        ({ s with log := s.log ++ l.flatMap calls }, .returned ()) := by
  induction l with
  | nil => intro s _; simp [allModelsLoop]
  | cons model l ih =>
    intro s hl
    have hmodel := hl model (List.mem_cons_self _ _)
    simp only [allModelsLoop]
    rcases hg : gpt [{ Role := "user", Content := question }] model.ID with
      ⟨resp, _ | err⟩ | what
    · simp only []
      rw [ih _ (fun x hx => hl x (List.mem_cons_of_mem _ hx))]
      simp [replyCard, modelCard, List.flatMap_cons, hcalls model, hg]
    · simp only []
      rw [ih _ (fun x hx => hl x (List.mem_cons_of_mem _ hx))]
      simp [replyCard, modelCard, List.flatMap_cons, hcalls model, hg]
    · exact absurd hg (hmodel what)

theorem allModelsLoop_panics (gpt : Completer) (question : String)
    (calls : MainModel → List Call)
    (hcalls : ∀ model, calls model =
      [.CompletionsWithModel [{ Role := "user", Content := question }] model.ID,
       .replyCard
         { title := model.Emoji ++ " " ++ model.DisplayName ++ " 的回答",
           template :=
             (match gpt [{ Role := "user", Content := question }] model.ID with
              | .returned _ (some _) => "red"
              | _ => "green"),
           body := withMainMd ("**问题:** " ++ question ++ "\n\n**回答:**\n" ++
             (match gpt [{ Role := "user", Content := question }] model.ID with
              | .returned _ (some err) => "❌ 调用失败: " ++ err
              | .returned completions none => completions.Content
              | .panicked _ => "")),
           modelSwitchButtons := true,
           note := "来自 " ++ model.DisplayName ++ " 的回答，点击按钮可切换其他模型" }])
    (front back : List MainModel) (model : MainModel) (what : String)
    (hfront : ∀ x ∈ front, ∀ what, gpt [{ Role := "user", Content := question }] x.ID ≠
      .panicked what)
    (hmodel : gpt [{ Role := "user", Content := question }] model.ID = .panicked what) :
    ∀ s : Session,
      allModelsLoop gpt question (front ++ model :: back) s =
        ({ s with log := s.log ++ front.flatMap calls ++
            [.CompletionsWithModel [{ Role := "user", Content := question }] model.ID] },
          .panicked what) := by
  induction front with
  | nil =>
    intro s
    simp [allModelsLoop, hmodel]
  | cons x front ih =>
    intro s
    have hx := hfront x (List.mem_cons_self _ _)
    have ih2 := ih (fun y hy => hfront y (List.mem_cons_of_mem _ hy))
    simp only [List.cons_append, allModelsLoop]
    rcases hg : gpt [{ Role := "user", Content := question }] x.ID with ⟨resp, _ | err⟩ | w
    · simp only [List.append_eq]
      rw [ih2]
      simp [replyCard, modelCard, List.flatMap_cons, hcalls x, hg]
    · simp only [List.append_eq]
      rw [ih2]
      simp [replyCard, modelCard, List.flatMap_cons, hcalls x, hg]
    · exact absurd hg (hx w)

theorem mem_keys_iff_getModelInfo (query : String) :
    query ∈ SupportedModels.map Prod.fst ↔ ∃ model, GetModelInfo query = some model := by
  constructor
  · intro h
    have key : ∀ l : List (String × ModelInfo), query ∈ l.map Prod.fst →
        ∃ model, l.lookup query = some model := by
      intro l
      induction l with
      | nil => simp
      | cons p rest ih =>
        obtain ⟨k, v⟩ := p
        intro hq
        by_cases hk : query = k
        · subst hk
          exact ⟨v, by simp [List.lookup]⟩
        · have hb : (query == k) = false := by simpa using hk
          simp only [List.map_cons, List.mem_cons, hk, false_or] at hq
          obtain ⟨m, hm⟩ := ih hq
          exact ⟨m, by simp only [List.lookup, hb, hm]⟩
    exact key SupportedModels h
  · rintro ⟨model, h⟩
    exact (getModelInfo_key query model h).2

/-! ## Theorems -/

/-- C1 (evaluation at the failing input): when `StreamChat` returns an error and
every patch succeeds, `updateFinalCardWithSession` is called three times: by
the producer's error branch, by its `recover` handler after the second
`close(done)` panics, and by the coordinator's `case <-done`. -/
theorem C1_error_path_pushes_three_final_cards :
    (run (requestCfg "d" sampleHistory "q" [] .err) (init sampleHistory) errorSchedule).map
      (fun s => finalPushes s.effects) = some 3 := by
  decide

/-- C2 (evaluation at the failing input): when `StreamChat` returns an error, the
coordinator still stores the request context plus an assistant message, so the
session record differs from the stored history. -/
theorem C2_error_path_rewrites_record :
    (run (requestCfg "d" sampleHistory "q" [] .err) (init sampleHistory) errorSchedule).map
      (fun s => (s.record, decide (s.record = sampleHistory))) =
      some (sampleHistory ++ [{ Role := "user", Content := "q" },
                              { Role := "assistant", Content := "" }], false) := by
  decide

/-- C3 (evaluation at the failing input): when nothing arrives before the timer
fires, the timeout card is patched first and the coordinator then patches a
final card built from the empty answer over it; no partial update is pushed. -/
theorem C3_timeout_card_is_overwritten :
    (run (requestCfg "d" sampleHistory "q" [] .ok) (init sampleHistory) timeoutSchedule).map
      (fun s => ((finalCards false s.effects).map (fun k => k.body), partialPushes s.effects)) =
      some (["请求超时", ""], 0) := by
  decide

/-- C4 (evaluation at the failing input): when `StreamChat` returns an error after
one fragment, the failure card is patched twice and a final card built from
the accumulated answer follows. -/
theorem C4_failure_card_twice_then_answer_card :
    (run (requestCfg "d" sampleHistory "q" ["Hi"] .err) (init sampleHistory)
        fragmentThenErrorSchedule).map
      (fun s => (finalCards false s.effects).map (fun k => k.body)) =
      some ["聊天失败", "聊天失败", "Hi"] := by
  decide

/-- C5: when the placeholder send fails, `Execute` returns false and starts
nothing: no request state exists, so along every schedule no card is patched
and the session record stays the stored history. -/
theorem C5_placeholder_failure_stops_everything (date : String) (history : List Messages)
    (qParsed : String) (sendOnProcess : Bool → Except String String)
    (frags : List String) (result : ChatResult) (e : String)
    (hfail : sendOnProcess (requestCfg date history qParsed frags result).ifNewTopic = .error e) :
    let o := Execute true date history qParsed sendOnProcess frags result
    o.ret = false ∧ o.started = none ∧
      ∀ es : List Ev, o.after es = none ∧ o.effectsAfter es = [] ∧
        o.recordAfter history es = history := by
  simp [Execute, hfail, ExecOut.after, ExecOut.effectsAfter, ExecOut.recordAfter]

/-- Witness for C5: a placeholder send that always fails. -/
theorem C5_placeholder_failure_stops_everything_witness :
    let o := Execute true "d" sampleHistory "q" (fun _ => .error "send failed") ["a"] .ok
    o.ret = false ∧ o.started = none ∧
      ∀ es : List Ev, o.after es = none ∧ o.effectsAfter es = [] ∧
        o.recordAfter sampleHistory es = sampleHistory :=
  C5_placeholder_failure_stops_everything "d" sampleHistory "q" (fun _ => .error "send failed")
    ["a"] .ok "send failed" rfl

/-- C6 (counterexample): one fragment is received after 200 ms and then nothing
for 20 s while `StreamChat` still has a fragment to send; the timer is stopped,
its callback never ran, `done` is open and the coordinator keeps waiting. -/
theorem C6_stall_after_first_fragment_not_detected :
    (run (requestCfg "d" sampleHistory "q" ["a", "b"] .ok) (init sampleHistory)
        stallSchedule).map
      (fun s => ((s.now, s.sent, s.prod), (s.noContentTimeout, s.cb, s.doneClosed, s.coord))) =
      some ((20200, 1, .streaming), (.stopped, .idle, false, .waiting)) := by
  decide

/-- C6 (amended): the timer is a first-content timeout that is never re-armed.
Once a fragment has been received with the timer not yet fired, the timer is
stopped and stays stopped along every continuation, so a later stall is not
detected.  When 10 s have passed with no fragment received and the coordinator
still running, the timer has fired; it has never fired before 10 s; and a step
makes it fire exactly when that step is a passage of time that takes the clock
from below 10000 ms to 10000 ms or more while no fragment has been received
and the coordinator has not returned. -/
theorem C6_timer_is_first_content_only (c : Cfg) (history : List Messages)
    (es1 es2 : List Ev) (s1 s2 : St)
    (h1 : run c (init history) es1 = some s1) (h2 : run c s1 es2 = some s2) :
    (0 < s1.sent → s1.noContentTimeout ≠ .fired → s2.noContentTimeout = .stopped ∧ s2.cb = .idle) ∧
    (s1.sent = 0 → s1.coord ≠ .returned → noContentDuration ≤ s1.now →
      s1.noContentTimeout = .fired ∧ s1.cb ≠ .idle) ∧
    (s1.noContentTimeout = .fired → 10000 ≤ s1.now) ∧
    (∀ (e : Ev) (s' : St), step c s1 e = some s' →
      ((s1.noContentTimeout ≠ .fired ∧ s'.noContentTimeout = .fired) ↔
        ∃ dt, e = .elapse dt ∧ s1.sent = 0 ∧ s1.coord ≠ .returned ∧
          s1.now < 10000 ∧ 10000 ≤ s1.now + dt)) := by
  have hI1 := (inv_reachable c history es1 s1 h1).timer
  have hI2 := (inv_run c history es2 s1 s2 (inv_reachable c history es1 s1 h1) h2).timer
  have hlate := fired_late c history es1 s1 h1
  have hD : noContentDuration = 10000 := rfl
  refine ⟨?_, ?_, ?_, ?_⟩
  · intro hsent hnf
    have hst : s1.noContentTimeout = .stopped := by
      cases ht : s1.noContentTimeout with
      | armed => have := (hI1.armed_unsent ht).1; omega
      | stopped => rfl
      | fired => exact absurd ht hnf
    have := stopped_run c es2 s1 s2 h2 hst
    exact ⟨this, hI2.cb_idle.mpr (by simp [this])⟩
  · intro hsent hcoord hnow
    have hf : s1.noContentTimeout = .fired := by
      cases ht : s1.noContentTimeout with
      | armed => have := hI1.armed_early ht; omega
      | stopped =>
        rcases hI1.stopped_why ht with h | h
        · omega
        · exact absurd h hcoord
      | fired => rfl
    exact ⟨hf, fun hidle => (hI1.cb_idle.mp hidle) hf⟩
  · intro hf
    have := hlate hf
    omega
  · intro e s' hstep
    constructor
    · rintro ⟨hnf, hf⟩
      obtain ⟨dt, he, ha, hd⟩ := fires_at_step c s1 e s' hstep hnf hf
      have hearly := hI1.armed_early ha
      obtain ⟨hs, hc⟩ := hI1.armed_unsent ha
      exact ⟨dt, he, hs, hc, by omega, by omega⟩
    · rintro ⟨dt, rfl, hs, hc, hlt, hge⟩
      have ha : s1.noContentTimeout = .armed := by
        cases ht : s1.noContentTimeout with
        | armed => rfl
        | stopped =>
          rcases hI1.stopped_why ht with h | h
          · omega
          · exact absurd h hc
        | fired => have := hlate ht; omega
      refine ⟨by simp [ha], ?_⟩
      simp only [step] at hstep
      split_ifs at hstep <;> cases hstep <;> simp_all

/-- Witness for C6 (amended): one fragment received, then a 20 s stall; and with
no fragment at all, the timer armed at 9999 ms and fired at 10000 ms. -/
theorem C6_timer_is_first_content_only_witness :
    (∃ s1 s2 : St,
      run (requestCfg "d" sampleHistory "q" ["a", "b"] .ok) (init sampleHistory)
        [.elapse 200, .recv] = some s1 ∧
      run (requestCfg "d" sampleHistory "q" ["a", "b"] .ok) s1 [.elapse 20000] = some s2 ∧
      0 < s1.sent ∧ s1.noContentTimeout ≠ .fired ∧
      s2.noContentTimeout = .stopped ∧ s2.cb = .idle) ∧
    (∃ s1 s2 : St,
      run (requestCfg "d" sampleHistory "q" ["a", "b"] .ok) (init sampleHistory)
        [.elapse 9999] = some s1 ∧
      step (requestCfg "d" sampleHistory "q" ["a", "b"] .ok) s1 (.elapse 1) = some s2 ∧
      s1.noContentTimeout = .armed ∧ s2.noContentTimeout = .fired ∧ s2.now = 10000) ∧
    (∃ s1 : St,
      run (requestCfg "d" sampleHistory "q" ["a", "b"] .ok) (init sampleHistory)
        [.elapse 4000, .elapse 6000] = some s1 ∧
      s1.sent = 0 ∧ s1.coord ≠ .returned ∧ s1.noContentTimeout = .fired ∧ s1.cb ≠ .idle ∧
      10000 ≤ s1.now) :=
  ⟨⟨_, _, rfl, rfl, by decide, by decide,
    (C6_timer_is_first_content_only (requestCfg "d" sampleHistory "q" ["a", "b"] .ok)
      sampleHistory [.elapse 200, .recv] [.elapse 20000] _ _ rfl rfl).1 (by decide) (by decide)⟩,
   ⟨_, _, rfl, rfl, by decide,
    (((C6_timer_is_first_content_only (requestCfg "d" sampleHistory "q" ["a", "b"] .ok)
      sampleHistory [.elapse 9999] [] _ _ rfl rfl).2.2.2 (.elapse 1) _ rfl).2
        ⟨1, rfl, by decide, by decide, by decide, by decide⟩).2, by decide⟩,
   ⟨_, rfl, by decide, by decide,
    ((C6_timer_is_first_content_only (requestCfg "d" sampleHistory "q" ["a", "b"] .ok)
      sampleHistory [.elapse 4000, .elapse 6000] [] _ _ rfl rfl).2.1
        (by decide) (by decide) (by decide)).1,
    ((C6_timer_is_first_content_only (requestCfg "d" sampleHistory "q" ["a", "b"] .ok)
      sampleHistory [.elapse 4000, .elapse 6000] [] _ _ rfl rfl).2.1
        (by decide) (by decide) (by decide)).2,
    (C6_timer_is_first_content_only (requestCfg "d" sampleHistory "q" ["a", "b"] .ok)
      sampleHistory [.elapse 4000, .elapse 6000] [] _ _ rfl rfl).2.2.1
        ((C6_timer_is_first_content_only (requestCfg "d" sampleHistory "q" ["a", "b"] .ok)
          sampleHistory [.elapse 4000, .elapse 6000] [] _ _ rfl rfl).2.1
            (by decide) (by decide) (by decide)).1⟩⟩

/-- C7: if the first fragment is received less than `noContentDuration` after
the start and every later one less than `noContentDuration` after the one
before, the timer has not fired and its callback has not run at any point of
the run, whatever else is scheduled and however long the run is. -/
theorem C7_timer_never_fires_while_fragments_arrive (c : Cfg) (history : List Messages)
    (es : List Ev) (s : St) (hrun : run c (init history) es = some s)
    (hfirst : arrivalGaps 0 es ≠ [])
    (hgaps : ∀ g ∈ arrivalGaps 0 es, g < noContentDuration) :
    ∀ (pre suf : List Ev) (m : St), es = pre ++ suf → run c (init history) pre = some m →
      m.noContentTimeout ≠ .fired ∧ m.cb = .idle := by
  have hstop : s.noContentTimeout = .stopped :=
    gaps_stop_timer c es (init history) s 0 hrun rfl rfl hfirst hgaps
  intro pre suf m hes hm
  have hsuf : run c m suf = some s := by
    rw [hes, run_append, hm] at hrun
    exact hrun
  have hnf : m.noContentTimeout ≠ .fired := by
    intro hf
    have := fired_run c suf m s hsuf hf
    rw [hstop] at this
    cases this
  exact ⟨hnf, (inv_reachable c history pre m hm).timer.cb_idle.mpr hnf⟩

/-- Witness for C7: a 27 s stream with 9 s between fragments. -/
theorem C7_timer_never_fires_while_fragments_arrive_witness :
    ∃ s : St,
      run (requestCfg "d" sampleHistory "q" ["a", "b", "c"] .ok) (init sampleHistory)
        slowSchedule = some s ∧
      s.now = 27000 ∧ arrivalGaps 0 slowSchedule = [9000, 9000, 9000] ∧
      s.noContentTimeout ≠ .fired ∧ s.cb = .idle :=
  ⟨_, rfl, by decide, by decide,
    C7_timer_never_fires_while_fragments_arrive
      (requestCfg "d" sampleHistory "q" ["a", "b", "c"] .ok) sampleHistory slowSchedule _ rfl
      (by decide) (by decide) slowSchedule [] _ (by simp) rfl⟩

/-- C8: along every run, the answer held after `k` fragments were received is
the concatenation of the first `k` fragments, and the answer held after `k + 1`
fragments is that answer followed by the next fragment, hence has it as a prefix. -/
theorem C8_answer_grows_by_appending (c : Cfg) (history : List Messages)
    (es1 es2 : List Ev) (s1 s2 : St) (k : Nat)
    (h1 : run c (init history) es1 = some s1) (h2 : run c s1 es2 = some s2)
    (hk : s1.sent = k) (hk1 : s2.sent = k + 1) :
    s1.answer = concatFrags (c.frags.take k) ∧
    s2.answer = concatFrags (c.frags.take (k + 1)) ∧
    ∃ f, c.frags[k]? = some f ∧ s2.answer = s1.answer ++ f := by
  have hI1 := (inv_reachable c history es1 s1 h1).answer
  have hI2 := (inv_run c history es2 s1 s2 (inv_reachable c history es1 s1 h1) h2).answer
  have ha1 : s1.answer = concatFrags (c.frags.take k) := by rw [hI1.answer_eq, hk]
  have ha2 : s2.answer = concatFrags (c.frags.take (k + 1)) := by rw [hI2.answer_eq, hk1]
  have hlt : k < c.frags.length := by
    have := hI2.sent_le
    omega
  refine ⟨ha1, ha2, c.frags[k], List.getElem?_eq_getElem hlt, ?_⟩
  rw [ha2, ha1]
  exact concatFrags_take_succ c.frags k _ (List.getElem?_eq_getElem hlt)

/-- Witness for C8: the answer after one and after two of three fragments. -/
theorem C8_answer_grows_by_appending_witness :
    ∃ s1 s2 : St,
      run (requestCfg "d" sampleHistory "q" ["Hel", "lo, ", "world"] .ok) (init sampleHistory)
        [.recv] = some s1 ∧
      run (requestCfg "d" sampleHistory "q" ["Hel", "lo, ", "world"] .ok) s1
        [.elapse 800, .pubTick, .recv] = some s2 ∧
      s1.answer = "Hel" ∧ s2.answer = "Hello, " ∧
      ∃ f, ["Hel", "lo, ", "world"][1]? = some f ∧ s2.answer = s1.answer ++ f :=
  ⟨_, _, rfl, rfl, by decide, by decide,
    (C8_answer_grows_by_appending
      (requestCfg "d" sampleHistory "q" ["Hel", "lo, ", "world"] .ok) sampleHistory
      [.recv] [.elapse 800, .pubTick, .recv] _ _ 1 rfl rfl rfl rfl).2.2⟩

/-- C9 (counterexample): the producer emits "Hel", "lo" and finishes normally, the
final card patch fails, and the coordinator returns before `SetMsg`: the record
is still the stored history, with no assistant message for this request. -/
theorem C9_nothing_stored_when_final_patch_fails :
    (run (requestCfg "d" sampleHistory "q" ["Hel", "lo"] .ok) (init sampleHistory)
        finalPatchFailsSchedule).map
      (fun s => ((s.prod, s.coord, s.answer), (s.record, setMsgs s.effects))) =
      some ((.exited, .returned, "Hello"), (sampleHistory, [])) := by
  decide

/-- C9 (amended): the record is written exactly when the coordinator's final
card patch succeeds. Then `SetMsg` was called once, the record is the request
context (history with the default prompt, then the user question) followed by
one assistant message, whose content is the concatenation, in order, of the
fragments received: all of them when the timer has not fired. Without a
successful final patch the record is the stored history and `SetMsg` was not
called. -/
theorem C9_record_is_context_plus_concatenation (date : String) (history : List Messages)
    (qParsed : String) (frags : List String) (es : List Ev) (s : St)
    (hrun : run (requestCfg date history qParsed frags .ok) (init history) es = some s) :
    (Ev.coordFinal true ∈ es →
      s.record = setDefaultPrompt date history ++ [{ Role := "user", Content := qParsed }] ++
          [{ Role := "assistant", Content := concatFrags (frags.take s.sent) }] ∧
        setMsgs s.effects = [s.record] ∧
        (s.noContentTimeout ≠ .fired → s.sent = frags.length ∧
          concatFrags (frags.take s.sent) = concatFrags frags)) ∧
    (Ev.coordFinal true ∉ es → s.record = history ∧ setMsgs s.effects = []) := by
  have hI := inv_reachable _ history es s hrun
  have hsc := run_streamClosed _ es (init history) s hrun
  simp only [init, Bool.false_eq_true, false_or] at hsc
  constructor
  · intro hmem
    obtain ⟨_, hrec, hset⟩ := hI.done.stored (hsc.mpr hmem)
    have hans := hI.answer.answer_eq
    simp only [requestCfg] at hans
    refine ⟨?_, ?_, ?_⟩
    · rw [hrec, storedRecord, hans]
      rfl
    · rw [hset, hrec]
    · intro hnf
      have hd := hI.done.coord_after_done (by
        rw [(hI.done.stored (hsc.mpr hmem)).1]
        simp)
      have hlen : s.sent = frags.length := by
        rcases hI.done.closed_by hd with h | h
        · exact absurd h hnf
        · exact h
      exact ⟨hlen, by rw [hlen, List.take_length]⟩
  · intro hmem
    have hcl : s.streamClosed = false := by
      cases h : s.streamClosed with
      | false => rfl
      | true => exact absurd (hsc.mp h) hmem
    exact hI.done.not_stored hcl

/-- Witness for C9 (amended): the run of "Hel", "lo, ", "world" with a successful final patch. -/
theorem C9_record_is_context_plus_concatenation_witness :
    ∃ s : St,
      run (requestCfg "d" sampleHistory "q" ["Hel", "lo, ", "world"] .ok) (init sampleHistory)
        normalSchedule = some s ∧
      s.record = sampleHistory ++ [{ Role := "user", Content := "q" },
        { Role := "assistant", Content := "Hello, world" }] ∧
      s.record = setDefaultPrompt "d" sampleHistory ++ [{ Role := "user", Content := "q" }] ++
          [{ Role := "assistant",
             Content := concatFrags (["Hel", "lo, ", "world"].take s.sent) }] ∧
      setMsgs s.effects = [s.record] :=
  ⟨_, rfl, by decide,
    ((C9_record_is_context_plus_concatenation "d" sampleHistory "q" ["Hel", "lo, ", "world"]
      normalSchedule _ rfl).1 (by decide)).1,
    ((C9_record_is_context_plus_concatenation "d" sampleHistory "q" ["Hel", "lo, ", "world"]
      normalSchedule _ rfl).1 (by decide)).2.1⟩

/-- C10 (counterexample): for the fragments "Hello, " and "world\n" the body of the
final card is "Hello, world", which is not their concatenation: `withMainMd`
trims the white space at the ends. -/
theorem C10_final_body_is_trimmed :
    (run (requestCfg "d" sampleHistory "q" ["Hello, ", "world\n"] .ok) (init sampleHistory)
        trailingNewlineSchedule).map
      (fun s => (finalCards false s.effects).map
        (fun k => (k.body, decide (k.body = concatFrags ["Hello, ", "world\n"])))) =
      some [("Hello, world", false)] := by
  decide

/-- C10 (amended): in a run where `StreamChat` returned nil, the timer has not
fired and the coordinator has returned, exactly one final card was patched; it
was built from the full answer `f1 ++ ... ++ fn` and its body is that answer as
`withMainMd` renders it (ends trimmed, backslash-`n` pairs turned into
newlines), which is the answer itself when it has no white space at its ends
and no such pair. The body of every partial card is `withMainMd` of a non-empty
concatenation of the first fragments, a prefix of the full answer, followed by
the indicator. -/
theorem C10_final_card_renders_full_answer (c : Cfg) (history : List Messages)
    (es : List Ev) (s : St) (hok : c.result = .ok)
    (hrun : run c (init history) es = some s)
    (hnf : s.noContentTimeout ≠ .fired) (hret : s.coord = .returned) :
    finalMsgs s.effects = [concatFrags c.frags] ∧
    (finalCards c.ifNewTopic s.effects).map (fun k => k.body) =
      [withMainMd (concatFrags c.frags)] ∧
    (PlainMd (concatFrags c.frags) →
      (finalCards c.ifNewTopic s.effects).map (fun k => k.body) = [concatFrags c.frags]) ∧
    ∀ k ∈ textCards c.ifNewTopic s.effects, ∃ p t, 0 < len p ∧
      k.body = withMainMd (p ++ indicator) ∧ concatFrags c.frags = p ++ t := by
  have hI := inv_reachable c history es s hrun
  have hfin := (hI.normal hok hnf).final_pushed hret
  have hbody : (finalCards c.ifNewTopic s.effects).map (fun k => k.body) =
      [withMainMd (concatFrags c.frags)] := by
    rw [finalCards_eq_map, hfin]
    rfl
  refine ⟨hfin, hbody, ?_, ?_⟩
  · intro hplain
    rw [hbody, withMainMd_plain _ hplain]
  · intro card hcard
    rw [textCards_eq_map, List.mem_map] at hcard
    obtain ⟨m, hm, rfl⟩ := hcard
    obtain ⟨ok, hmem⟩ := mem_textMsgs s.effects m hm
    obtain ⟨k, hpos, heq⟩ := hI.answer.pushed_partial _ hmem
    obtain ⟨t, ht⟩ := concatFrags_take_prefix c.frags k
    exact ⟨_, t, hpos, by rw [heq]; rfl, ht⟩

/-- Witness for C10 (amended): "Hel", "lo, ", "world" with one partial patch. -/
theorem C10_final_card_renders_full_answer_witness :
    ∃ s : St,
      run (requestCfg "d" sampleHistory "q" ["Hel", "lo, ", "world"] .ok) (init sampleHistory)
        normalSchedule = some s ∧
      textMsgs s.effects = ["Hello, world" ++ indicator] ∧
      (finalCards false s.effects).map (fun k => k.body) = ["Hello, world"] :=
  ⟨_, rfl, by decide,
    (C10_final_card_renders_full_answer
      (requestCfg "d" sampleHistory "q" ["Hel", "lo, ", "world"] .ok) sampleHistory
      normalSchedule _ rfl rfl (by decide) (by decide)).2.2.1
      ⟨by decide, by decide, by decide⟩⟩

/-- C11: `lastUpdateLength <= len(answer)` holds in the initial state, is kept
by every step of the request from any state where it holds (a fragment append,
a tick that pushes with success, pushes and fails, or is skipped, and every
other step), and so holds in every state of every run. -/
theorem C11_lastUpdateLength_le_len_answer (c : Cfg) (history : List Messages) :
    (init history).lastUpdateLength ≤ len (init history).answer ∧
    (∀ (s s' : St) (e : Ev), s.lastUpdateLength ≤ len s.answer → step c s e = some s' →
      s'.lastUpdateLength ≤ len s'.answer) ∧
    (∀ (es : List Ev) (s : St), run c (init history) es = some s →
      s.lastUpdateLength ≤ len s.answer) := by
  refine ⟨by simp [init], ?_, ?_⟩
  · intro s s' e hinv h
    cases e <;> simp only [step] at h <;> split_ifs at h <;> (try split at h) <;>
      (try cases h) <;> simp_all [len_append]
    omega
  · intro es s h
    exact (publishInv_reachable c history es s h).published_le

/-- Witness for C11: after a fragment, a successful push and a skipped tick. -/
theorem C11_lastUpdateLength_le_len_answer_witness :
    ∃ s : St,
      run (requestCfg "d" sampleHistory "q" ["Hi", "!"] .ok) (init sampleHistory)
        twoTickSchedule = some s ∧
      s.lastUpdateLength = 2 ∧ len s.answer = 2 ∧ s.lastUpdateLength ≤ len s.answer :=
  ⟨_, rfl, by decide, by decide,
    (C11_lastUpdateLength_le_len_answer (requestCfg "d" sampleHistory "q" ["Hi", "!"] .ok)
      sampleHistory).2.2 twoTickSchedule _ rfl⟩

/-- C13: when a partial push fails in a state of a run, the call is logged once
and nothing else changes but the publisher's control point, which is the loop
head: selecting again while `isStreaming` holds (it exits only when `done` is
already closed). `done`, the coordinator, the producer and
`lastUpdateLength` are untouched and nothing has crashed; no further push can
happen before a tick is taken; and at any later tick with the same
`lastUpdateLength` and an answer at least as long, the publisher pushes again. -/
theorem C13_failed_push_is_retried_next_tick (c : Cfg) (history : List Messages)
    (es : List Ev) (s s' : St) (content : String)
    (hrun : run c (init history) es = some s) (hpub : s.pub = .pushing content)
    (hfail : step c s (.pubPush false) = some s') :
    s'.effects = s.effects ++ [.updateTextCard content false] ∧
    s'.lastUpdateLength = s.lastUpdateLength ∧
    s'.pub = pubLoopHead s.isStreaming ∧
    (s.isStreaming = true → s'.pub = .selecting) ∧
    (s'.pub = .exited → s.doneClosed = true) ∧
    (s'.doneClosed = s.doneClosed ∧ s'.coord = s.coord ∧ s'.prod = s.prod ∧
      s'.answer = s.answer ∧ s'.crashed = false) ∧
    (∀ ok, step c s' (.pubPush ok) = none) ∧
    (∀ t : St, t.crashed = false → t.pub = .selecting → t.tickPending = true →
      t.lastUpdateLength = s'.lastUpdateLength → len s'.answer ≤ len t.answer →
      step c t .pubTick = some { t with tickPending := false,
                                        pub := .pushing (t.answer ++ indicator) }) := by
  have hI := publishInv_reachable c history es s hrun
  have hgrown := hI.pushing_grown content hpub
  simp [step, hpub] at hfail
  obtain ⟨hc, rfl⟩ := hfail
  refine ⟨rfl, rfl, rfl, ?_, ?_, ⟨rfl, rfl, rfl, rfl, hc⟩, ?_, ?_⟩
  · intro hs
    simp [pubLoopHead, hs]
  · intro hex
    cases hs : s.isStreaming with
    | true => simp [pubLoopHead, hs] at hex
    | false => exact hI.stopped_after_done hs
  · intro ok
    simp only [step]
    cases hs : s.isStreaming <;> simp [pubLoopHead, hs]
  · intro t htc htp htt hlul hlen
    simp only at hlul hlen
    have hgt : len t.answer > t.lastUpdateLength := by omega
    have hpos : len t.answer > 0 := by omega
    simp [step, htc, htp, htt, hgt, hpos]

/-- Witness for C13: the push of "Hi" fails 800 ms into the request. -/
theorem C13_failed_push_is_retried_next_tick_witness :
    ∃ s' : St,
      run (requestCfg "d" sampleHistory "q" ["Hi", "!"] .ok) (init sampleHistory)
        [.elapse 100, .recv, .elapse 700, .pubTick] = some pushingState ∧
      step (requestCfg "d" sampleHistory "q" ["Hi", "!"] .ok) pushingState (.pubPush false) =
        some s' ∧
      s'.effects = [.updateTextCard ("Hi" ++ indicator) false] ∧
      s'.lastUpdateLength = 0 ∧ s'.pub = .selecting :=
  ⟨_, by decide, rfl,
    (C13_failed_push_is_retried_next_tick (requestCfg "d" sampleHistory "q" ["Hi", "!"] .ok)
      sampleHistory [.elapse 100, .recv, .elapse 700, .pubTick] pushingState _
      ("Hi" ++ indicator) (by decide) rfl rfl).1,
    by decide, by decide⟩

/-- C14 (evaluation at the failing input): after `StreamChat` returns an error
the producer closes `done` at line 177 and reaches line 180 with `done` closed;
the second `close(done)` panics, leaving the producer in its `recover` handler.
And when the timer has closed `done` first, the producer's `close(done)` after a
normal return panics too and its handler patches the failure card over the
timeout card. -/
theorem C14_producer_closes_done_twice :
    (run (requestCfg "d" sampleHistory "q" [] .err) (init sampleHistory)
        doubleCloseSchedule.dropLast).map (fun s => (s.doneClosed, s.prod)) =
      some (true, .close180) ∧
    (run (requestCfg "d" sampleHistory "q" [] .err) (init sampleHistory)
        doubleCloseSchedule).map (fun s => (s.doneClosed, s.prod)) =
      some (true, .recovering) ∧
    (run (requestCfg "d" sampleHistory "q" [] .ok) (init sampleHistory)
        timeoutThenReturnSchedule).map (fun s => finalMsgs s.effects) =
      some ["请求超时", "聊天失败"] := by
  decide

/-- C15 (evaluation at the failing input): `updateTextCard` is called after
`done` was closed and after the final card was patched. -/
theorem C15_partial_update_after_final_card :
    (run (requestCfg "d" sampleHistory "q" ["a", "b"] .ok) (init sampleHistory)
        lateTickSchedule).map
      (fun s => (s.doneClosed, s.effects.map (fun e => match e with
        | .updateTextCard m _ => "updateTextCard " ++ m
        | .updateFinalCardWithSession m _ => "updateFinalCardWithSession " ++ m
        | .SetMsg _ => "SetMsg"))) =
      some (true, ["updateTextCard a" ++ indicator, "updateFinalCardWithSession ab", "SetMsg",
        "updateTextCard ab" ++ indicator]) := by
  decide

/-- C16 (evaluation at the failing input): the timer callback's `close(done)`
panics on the closed channel; the callback has no `recover`, so the process is
down, before the coordinator's final card, and no step is enabled any more. -/
theorem C16_timer_callback_panic_is_not_recovered :
    (run (requestCfg "d" sampleHistory "q" [] .ok) (init sampleHistory)
        lateTimerSchedule).map (fun s => (s.crashed, s.coord, s.effects)) =
      some (true, .finalizing, []) ∧
    ∀ (s : St) (e : Ev), s.crashed = true →
      step (requestCfg "d" sampleHistory "q" [] .ok) s e = none := by
  refine ⟨by decide, ?_⟩
  intro s e hs
  simp [step, hs]

/-- C17 (evaluation at the failing input): GPT-4o answers "42" and the request
for Claude comes back with no error and no choice, so `CompletionsWithModel`
panics in the goroutine of `NewAllModelsCardHandler`, which has no `recover`:
one card has been sent instead of three, DeepSeek is never called and compare
mode stays on.  For every completer: a call that panics ends the goroutine
right there with compare mode on, and when no call panics the three models are
called in order, each followed by its card (green with the response, red with
the failure text), and compare mode is turned off last. -/
theorem C17_all_models_stops_at_a_panicking_call :
    NewAllModelsCardHandler emptyChoicesCompleter AllModelsKind sampleSession =
      { returned := some
          { title := "🚀 主流模型回答", template := "blue",
            body := "**问题:** hi\n\n⏳ 正在请求GPT、Claude、DeepSeek三个主流模型回答，将分别发送3个卡片...",
            modelSwitchButtons := false, note := "请稍等，正在获取各模型回答" },
        session :=
          { currentModel := "qwen/qwen3-coder:free", compareMode := true, msg := sampleHistory,
            log := [.SetCompareMode true,
              .CompletionsWithModel [{ Role := "user", Content := "hi" }] "openai/gpt-4o",
              .replyCard
                { title := "🧠 GPT-4o 的回答", template := "green",
                  body := "**问题:** hi\n\n**回答:**\n42", modelSwitchButtons := true,
                  note := "来自 GPT-4o 的回答，点击按钮可切换其他模型" },
              .CompletionsWithModel [{ Role := "user", Content := "hi" }]
                "anthropic/claude-sonnet-4"] },
        goroutine := .panicked "invalid memory address or nil pointer dereference" } ∧
    (NewAllModelsCardHandler sampleCompleter AllModelsKind sampleSession).session.log.drop 3 =
      [.CompletionsWithModel [{ Role := "user", Content := "hi" }] "anthropic/claude-sonnet-4",
       .replyCard
         { title := "🎭 Claude-Sonnet-4 的回答", template := "green",
           body := "**问题:** hi\n\n**回答:**\n42", modelSwitchButtons := true,
           note := "来自 Claude-Sonnet-4 的回答，点击按钮可切换其他模型" },
       .CompletionsWithModel [{ Role := "user", Content := "hi" }]
         "deepseek/deepseek-chat-v3-0324:free",
       .replyCard
         { title := "🔍 DeepSeek-V3 的回答", template := "green",
           body := "**问题:** hi\n\n**回答:**\n42", modelSwitchButtons := true,
           note := "来自 DeepSeek-V3 的回答，点击按钮可切换其他模型" },
       .SetCompareMode false] ∧
    (NewAllModelsCardHandler
        (fun _ _ => .returned { Role := "", Content := "" } (some "timeout"))
        AllModelsKind sampleSession).session.log.take 3 =
      [.SetCompareMode true,
       .CompletionsWithModel [{ Role := "user", Content := "hi" }] "openai/gpt-4o",
       .replyCard
         { title := "🧠 GPT-4o 的回答", template := "red",
           body := "**问题:** hi\n\n**回答:**\n❌ 调用失败: timeout", modelSwitchButtons := true,
           note := "来自 GPT-4o 的回答，点击按钮可切换其他模型" }] ∧
    mainModels.map (fun model => model.ID) =
      ["openai/gpt-4o", "anthropic/claude-sonnet-4", "deepseek/deepseek-chat-v3-0324:free"] ∧
    (∀ (gpt : Completer) (s : Session) (front back : List MainModel) (model : MainModel)
      (what : String),
      mainModels = front ++ model :: back →
      (∀ x ∈ front, ∀ w,
        gpt [{ Role := "user", Content := userQuestion s.msg }] x.ID ≠ .panicked w) →
      gpt [{ Role := "user", Content := userQuestion s.msg }] model.ID = .panicked what →
      (NewAllModelsCardHandler gpt AllModelsKind s).goroutine = .panicked what ∧
      (NewAllModelsCardHandler gpt AllModelsKind s).session.compareMode = true ∧
      (NewAllModelsCardHandler gpt AllModelsKind s).session.log =
        s.log ++ [.SetCompareMode true] ++
        front.flatMap (fun model =>
          [.CompletionsWithModel [{ Role := "user", Content := userQuestion s.msg }] model.ID,
           .replyCard
             { title := model.Emoji ++ " " ++ model.DisplayName ++ " 的回答",
               template :=
                 (match gpt [{ Role := "user", Content := userQuestion s.msg }] model.ID with
                  | .returned _ (some _) => "red"
                  | _ => "green"),
               body := withMainMd ("**问题:** " ++ userQuestion s.msg ++ "\n\n**回答:**\n" ++
                 (match gpt [{ Role := "user", Content := userQuestion s.msg }] model.ID with
                  | .returned _ (some err) => "❌ 调用失败: " ++ err
                  | .returned completions none => completions.Content
                  | .panicked _ => "")),
               modelSwitchButtons := true,
               note := "来自 " ++ model.DisplayName ++ " 的回答，点击按钮可切换其他模型" }]) ++
        [.CompletionsWithModel [{ Role := "user", Content := userQuestion s.msg }]
          model.ID]) ∧
    (∀ (gpt : Completer) (s : Session),
      (∀ x ∈ mainModels, ∀ w,
        gpt [{ Role := "user", Content := userQuestion s.msg }] x.ID ≠ .panicked w) →
      (NewAllModelsCardHandler gpt AllModelsKind s).goroutine = .returned () ∧
      (NewAllModelsCardHandler gpt AllModelsKind s).session.compareMode = false ∧
      (NewAllModelsCardHandler gpt AllModelsKind s).session.log =
        s.log ++ [.SetCompareMode true] ++
        mainModels.flatMap (fun model =>
          [.CompletionsWithModel [{ Role := "user", Content := userQuestion s.msg }] model.ID,
           .replyCard
             { title := model.Emoji ++ " " ++ model.DisplayName ++ " 的回答",
               template :=
                 (match gpt [{ Role := "user", Content := userQuestion s.msg }] model.ID with
                  | .returned _ (some _) => "red"
                  | _ => "green"),
               body := withMainMd ("**问题:** " ++ userQuestion s.msg ++ "\n\n**回答:**\n" ++
                 (match gpt [{ Role := "user", Content := userQuestion s.msg }] model.ID with
                  | .returned _ (some err) => "❌ 调用失败: " ++ err
                  | .returned completions none => completions.Content
                  | .panicked _ => "")),
               modelSwitchButtons := true,
               note := "来自 " ++ model.DisplayName ++ " 的回答，点击按钮可切换其他模型" }]) ++
        [.SetCompareMode false]) := by
  refine ⟨by decide, by decide, by decide, by decide, ?_, ?_⟩
  · intro gpt s front back model what hsplit hfront hmodel
    have hloop := allModelsLoop_panics gpt (userQuestion s.msg) _ (fun _ => rfl) front back model
      what hfront hmodel (SetCompareMode true s)
    simp only [NewAllModelsCardHandler, hsplit, hloop]
    simp [AllModelsKind, SetCompareMode, List.append_assoc]
  · intro gpt s hall
    have hloop := allModelsLoop_returns gpt (userQuestion s.msg) _ (fun _ => rfl) mainModels
      (SetCompareMode true s) hall
    simp only [NewAllModelsCardHandler, hloop]
    simp [AllModelsKind, SetCompareMode, List.append_assoc]

/-- C18 (evaluation at the failing input): `Execute` tests the prefix "/model"
before the prefix "/models", so "/models" and "/模型列表" are handled by
`handleModelSwitch`, which finds no argument and replies with the switch help;
every message with one of these two prefixes goes the same way, and the reply
is not the one `handleModelList` sends. -/
theorem C18_models_command_is_taken_as_model_switch (lower : Char → Char)
    (order : List ModelInfo) (gpt : Completer) (s : Session) :
    ModelAction.Execute lower order gpt "/models" s = (sendModelHelp s, .returned false) ∧
    ModelAction.Execute lower order gpt "/模型列表" s = (sendModelHelp s, .returned false) ∧
    (∀ cmd : String, (HasPrefix cmd "/models" || HasPrefix cmd "/模型列表") = true →
      ModelAction.Execute lower order gpt cmd s =
        (handleModelSwitch lower order cmd s, .returned false)) ∧
    (sendModelHelp s).log ≠ (handleModelList s).log := by
  refine ⟨?_, ?_, ?_, ?_⟩
  · rw [execute_of_model_command lower order gpt "/models" s (by decide)]
    have : Fields "/models" = ["/models"] := by decide
    simp [handleModelSwitch, this]
  · rw [execute_of_model_command lower order gpt "/模型列表" s (by decide)]
    have : Fields "/模型列表" = ["/模型列表"] := by decide
    simp [handleModelSwitch, this]
  · intro cmd h
    apply execute_of_model_command
    rw [Bool.or_eq_true] at h ⊢
    rcases h with h | h
    · exact Or.inl (hasPrefix_trans cmd "/models" "/model" (by decide) h)
    · exact Or.inr (hasPrefix_trans cmd "/模型列表" "/模型" (by decide) h)
  · intro h
    simp only [sendModelHelp, handleModelList, replyMsg, List.append_cancel_left_eq,
      List.cons.injEq, Call.replyMsg.injEq, and_true] at h
    revert h
    decide

/-- C19: for every iteration order of the shipped catalog and every case mapping
that does on ASCII and on the catalog what `unicode.ToLower` does, "gpt-4o" is
not a key of `SupportedModels`, `SearchModels` finds exactly GPT-4o for it, and
`Execute` on "/model gpt-4o" sets the current model to "openai/gpt-4o", turns
compare mode off, confirms by a reply and returns false. -/
theorem C19_model_gpt4o_switches_to_gpt4o (lower : Char → Char) (order : List ModelInfo)
    (gpt : Completer) (s : Session) (hlower : LowersCatalog lower)
    (horder : IsIterationOrder order) :
    GetModelInfo "gpt-4o" = none ∧
    SearchModels lower order "gpt-4o" = [gpt4o] ∧
    handleModelSwitch lower order "/model gpt-4o" s =
      { currentModel := "openai/gpt-4o", compareMode := false, msg := s.msg,
        log := s.log ++ [.SetCurrentModel "openai/gpt-4o", .SetCompareMode false,
          .replyMsg ("✅ 已切换到模型: GPT-4o\n\n" ++ gpt4o.Description)] } ∧
    ModelAction.Execute lower order gpt "/model gpt-4o" s =
      (handleModelSwitch lower order "/model gpt-4o" s, .returned false) := by
  have hkey : GetModelInfo "gpt-4o" = none := by decide
  have hsearch : SearchModels lower order "gpt-4o" = [gpt4o] := by
    rw [searchModels_lowersCatalog lower hlower order horder "gpt-4o" (by decide)]
    have hp := List.Perm.filter (fun model : ModelInfo =>
      Contains (ToLower Char.toLower model.Name) (ToLower Char.toLower "gpt-4o") ||
      Contains (ToLower Char.toLower model.Description) (ToLower Char.toLower "gpt-4o") ||
      Contains (ToLower Char.toLower model.Provider) (ToLower Char.toLower "gpt-4o")) horder
    have hcat : (SupportedModels.map Prod.snd).filter (fun model : ModelInfo =>
      Contains (ToLower Char.toLower model.Name) (ToLower Char.toLower "gpt-4o") ||
      Contains (ToLower Char.toLower model.Description) (ToLower Char.toLower "gpt-4o") ||
      Contains (ToLower Char.toLower model.Provider) (ToLower Char.toLower "gpt-4o")) =
        [gpt4o] := by decide
    rw [hcat] at hp
    exact List.perm_singleton.mp hp
  refine ⟨hkey, hsearch, ?_,
    execute_of_model_command lower order gpt "/model gpt-4o" s (by decide)⟩
  have hf : Fields "/model gpt-4o" = ["/model", "gpt-4o"] := by decide
  simp [handleModelSwitch, hf, hkey, hsearch, replyMsg, SetCompareMode, SetCurrentModel, gpt4o]

/-- Witness for C19: the catalog in source order, with the ASCII case mapping. -/
theorem C19_model_gpt4o_switches_to_gpt4o_witness :
    LowersCatalog Char.toLower ∧
    IsIterationOrder (SupportedModels.map Prod.snd) ∧
    (handleModelSwitch Char.toLower (SupportedModels.map Prod.snd) "/model gpt-4o"
      sampleSession).currentModel = "openai/gpt-4o" ∧
    (handleModelSwitch Char.toLower (SupportedModels.map Prod.snd) "/model gpt-4o"
      sampleSession).compareMode = false :=
  ⟨⟨fun _ _ => rfl, fun c _ h => toLower_not_ascii c h⟩, List.Perm.refl _,
    by rw [(C19_model_gpt4o_switches_to_gpt4o Char.toLower (SupportedModels.map Prod.snd)
      sampleCompleter sampleSession ⟨fun _ _ => rfl, fun c _ h => toLower_not_ascii c h⟩
      (List.Perm.refl _)).2.2.1],
    by rw [(C19_model_gpt4o_switches_to_gpt4o Char.toLower (SupportedModels.map Prod.snd)
      sampleCompleter sampleSession ⟨fun _ _ => rfl, fun c _ h => toLower_not_ascii c h⟩
      (List.Perm.refl _)).2.2.1]⟩

/-- C20 (evaluation at the failing input): GPT-4o answers "42" and the request
for GPT-4.1 comes back with no error and no choice, so `CompletionsWithModel`
panics inside the loop of `handleModelCompare`: the loop is abandoned after one
response, the other models are never called, `SetCompareMode(false)` is not
reached and neither `handleModelCompare` nor `Execute` returns.  For every
iteration order of the catalog, completer and question: a call that panics
ends the handler right there with compare mode on; when no call panics the
handler sends the initial message, calls each model of the order once with
exactly that question, sends one response per model (the answer, or the
failure text when the call returned an error) with the end marker on the last
response only, and turns compare mode off. -/
theorem C20_compare_abandoned_at_a_panicking_call :
    handleModelCompare (SupportedModels.map Prod.snd) emptyChoicesCompleter "/compare why?"
        sampleSession =
      ({ currentModel := "qwen/qwen3-coder:free", compareMode := true, msg := sampleHistory,
         log := [.SetCompareMode true,
           .replyMsg "🤖 多模型对比模式\n问题: why?\n\n正在请求各个模型的回答...",
           .CompletionsWithModel [{ Role := "user", Content := "why?" }] "openai/gpt-4o",
           .replyMsg "【GPT-4o】\n42\n\n---",
           .CompletionsWithModel [{ Role := "user", Content := "why?" }] "openai/gpt-4.1"] },
       .panicked "invalid memory address or nil pointer dereference") ∧
    (ModelAction.Execute Char.toLower (SupportedModels.map Prod.snd) emptyChoicesCompleter
        "/compare why?" sampleSession).2 =
      .panicked "invalid memory address or nil pointer dereference" ∧
    ((handleModelCompare (SupportedModels.map Prod.snd) sampleCompleter "/compare why?"
        sampleSession).1.log.take 6 =
      [.SetCompareMode true,
       .replyMsg "🤖 多模型对比模式\n问题: why?\n\n正在请求各个模型的回答...",
       .CompletionsWithModel [{ Role := "user", Content := "why?" }] "openai/gpt-4o",
       .replyMsg "【GPT-4o】\n42\n\n---",
       .CompletionsWithModel [{ Role := "user", Content := "why?" }] "openai/gpt-4.1",
       .replyMsg "【GPT-4.1】\n调用失败: timeout\n\n---"]) ∧
    ((handleModelCompare (SupportedModels.map Prod.snd) sampleCompleter "/compare why?"
        sampleSession).1.log.drop 12 =
      [.CompletionsWithModel [{ Role := "user", Content := "why?" }]
         "deepseek/deepseek-chat-v3-0324:free",
       .replyMsg "【DeepSeek Chat V3 (免费)】\n42\n\n---",
       .CompletionsWithModel [{ Role := "user", Content := "why?" }]
         "moonshot/kimi-k2-0711-preview",
       .replyMsg "【Kimi K2 (免费)】\n42\n\n---\n\n✅ 多模型对比完成",
       .SetCompareMode false]) ∧
    (∀ (order : List ModelInfo) (gpt : Completer) (question : String) (s : Session),
      IsIterationOrder order →
      (∀ (front back : List ModelInfo) (model : ModelInfo) (what : String),
        order = front ++ model :: back →
        (∀ x ∈ front, ∀ w, gpt [{ Role := "user", Content := question }] x.ID ≠ .panicked w) →
        gpt [{ Role := "user", Content := question }] model.ID = .panicked what →
        (handleModelCompare order gpt ("/compare " ++ question) s).2 = .panicked what ∧
        (handleModelCompare order gpt ("/compare " ++ question) s).1.compareMode = true ∧
        (handleModelCompare order gpt ("/compare " ++ question) s).1.log =
          s.log ++ [.SetCompareMode true,
            .replyMsg ("🤖 多模型对比模式\n问题: " ++ question ++ "\n\n正在请求各个模型的回答...")] ++
          front.enum.flatMap (fun im =>
            [.CompletionsWithModel [{ Role := "user", Content := question }] im.2.ID,
             .replyMsg ("【" ++ im.2.Name ++ "】\n" ++
               (match gpt [{ Role := "user", Content := question }] im.2.ID with
                | .returned _ (some err) => "调用失败: " ++ err
                | .returned response none => response.Content
                | .panicked _ => "") ++ "\n\n---" ++
               (if im.1 + 1 = order.length then "\n\n✅ 多模型对比完成" else ""))]) ++
          [.CompletionsWithModel [{ Role := "user", Content := question }] model.ID]) ∧
      ((∀ x ∈ order, ∀ w, gpt [{ Role := "user", Content := question }] x.ID ≠ .panicked w) →
        (handleModelCompare order gpt ("/compare " ++ question) s).2 = .returned true ∧
        (handleModelCompare order gpt ("/compare " ++ question) s).1.compareMode = false ∧
        (handleModelCompare order gpt ("/compare " ++ question) s).1.currentModel =
          s.currentModel ∧
        (handleModelCompare order gpt ("/compare " ++ question) s).1.log =
          s.log ++ [.SetCompareMode true,
            .replyMsg ("🤖 多模型对比模式\n问题: " ++ question ++ "\n\n正在请求各个模型的回答...")] ++
          order.enum.flatMap (fun im =>
            [.CompletionsWithModel [{ Role := "user", Content := question }] im.2.ID,
             .replyMsg ("【" ++ im.2.Name ++ "】\n" ++
               (match gpt [{ Role := "user", Content := question }] im.2.ID with
                | .returned _ (some err) => "调用失败: " ++ err
                | .returned response none => response.Content
                | .panicked _ => "") ++ "\n\n---" ++
               (if im.1 + 1 = order.length then "\n\n✅ 多模型对比完成" else ""))]) ++
          [.SetCompareMode false]) ∧
      order.length = SupportedModels.length ∧
      (order.map (fun m => m.ID)).Perm (SupportedModels.map Prod.fst) ∧
      (order.map (fun m => m.ID)).Nodup) := by
  refine ⟨by decide, by decide, by decide, by decide, ?_⟩
  intro order gpt question s horder
  have hsplit : SplitN ("/compare " ++ question) = ["/compare", question] := by
    have := splitN_command "/compare" question (by decide)
    simpa using this
  have hids : (order.map (fun m => m.ID)).Perm (SupportedModels.map Prod.fst) := by
    have := List.Perm.map (fun m : ModelInfo => m.ID) horder
    have hcat : (SupportedModels.map Prod.snd).map (fun m : ModelInfo => m.ID) =
        SupportedModels.map Prod.fst := by decide
    rwa [hcat] at this
  have hlen : order.length = SupportedModels.length := by
    have := horder.length_eq
    simpa using this
  have hpos : 0 < order.length := by
    rw [hlen]
    decide
  refine ⟨?_, ?_, hlen, hids, (List.Perm.nodup_iff hids).mpr (by decide)⟩
  · intro front back model what horder2 hfront hmodel
    have henum : order.enum = front.enum ++ (front.length, model) ::
        back.enumFrom (front.length + 1) := by
      rw [horder2, List.enum_append, List.enumFrom_cons]
    have hloop := compareLoop_panics gpt question order.length _ (fun _ => rfl) hpos
      front.enum (back.enumFrom (front.length + 1)) (front.length, model) what
      (fun x hx => hfront x.2 (List.snd_mem_of_mem_enum hx)) hmodel
      (replyMsg ("🤖 多模型对比模式\n问题: " ++ question ++ "\n\n正在请求各个模型的回答...")
        (SetCompareMode true s))
    simp only [handleModelCompare, hsplit, GetAllModels, henum, hloop]
    simp [SetCompareMode, replyMsg, List.append_assoc]
  · intro hall
    have hloop := compareLoop_returns gpt question order.length _ (fun _ => rfl) hpos
      order.enum
      (replyMsg ("🤖 多模型对比模式\n问题: " ++ question ++ "\n\n正在请求各个模型的回答...")
        (SetCompareMode true s))
      (fun x hx => hall x.2 (List.snd_mem_of_mem_enum hx))
    simp only [handleModelCompare, hsplit, GetAllModels, hloop]
    simp [SetCompareMode, replyMsg, List.append_assoc]

/-- C21: when the decoded input has at least 16 bytes and the decrypted buffer
is `x` followed by `p` bytes equal to `p`, with `1 <= p <= 16` and
`len(x) + p` a multiple of 16, `decryptFeishuData` returns exactly `x` and a nil
error; the padding step alone does so for every such buffer. -/
theorem C21_padding_removal_inverts_pkcs7 (lib : CryptoLib) (encryptKey encryptStr : String)
    (data x : List Nat) (p : Nat)
    (hdecode : lib.decodeString encryptStr = .ok data) (hlen : 16 ≤ data.length)
    (hdec : lib.cryptBlocks (lib.sha256 encryptKey) (data.take 16) (data.drop 16) =
      x ++ List.replicate p p)
    (hp1 : 1 ≤ p) (_hp16 : p ≤ 16) (hblocks : (x.length + p) % 16 = 0) :
    removePadding (x ++ List.replicate p p) = .returned (some x) none ∧
    decryptFeishuData lib encryptKey encryptStr = .returned (some x) none := by
  refine ⟨removePadding_append_replicate x p hp1, ?_⟩
  have hk := lib.sha256_length encryptKey
  have hsrc : (data.drop 16).length % 16 = 0 := by
    have := lib.cryptBlocks_length (lib.sha256 encryptKey) (data.take 16) (data.drop 16)
    rw [hdec] at this
    rw [← this]
    simpa using hblocks
  simp only [decryptFeishuData, hdecode]
  rw [if_neg (by omega), if_neg (by omega), if_neg (by omega), hdec]
  exact removePadding_append_replicate x p hp1

/-- Witness for C21: "hello" with eleven bytes of padding after a 16-byte IV. -/
theorem C21_padding_removal_inverts_pkcs7_witness :
    sampleLib.decodeString paddedHello =
      .ok (List.replicate 16 97 ++ [104, 101, 108, 108, 111] ++ List.replicate 11 11) ∧
    (5 + 11) % 16 = 0 ∧
    decryptFeishuData sampleLib "key" paddedHello =
      .returned (some [104, 101, 108, 108, 111]) none :=
  ⟨rfl, by decide,
    (C21_padding_removal_inverts_pkcs7 sampleLib "key" paddedHello
      (List.replicate 16 97 ++ [104, 101, 108, 108, 111] ++ List.replicate 11 11)
      [104, 101, 108, 108, 111] 11 (by rfl) (by decide) (by decide) (by decide)
      (by decide) (by decide)).2⟩

/-- C22: the question asked again is the content of the last message with role
"user" (the one with no "user" message after it) when that content is not
empty, and the default question when it is empty or no message has role
"user". Both card handlers call `CompletionsWithModel` with exactly this
question as the only message: the model-switch handler once, the all-models
handler at least once and in every call it makes, three times when its
goroutine runs to its end. -/
theorem C22_card_handlers_ask_last_user_message :
    (∀ (front back : List Messages) (m : Messages), m.Role = "user" →
      (∀ x ∈ back, x.Role ≠ "user") →
      userQuestion (front ++ m :: back) =
        if m.Content = "" then "请介绍一下你自己" else m.Content) ∧
    (∀ msg : List Messages, (∀ x ∈ msg, x.Role ≠ "user") →
      userQuestion msg = "请介绍一下你自己") ∧
    (∀ (gpt : Completer) (modelID : String) (s : Session),
      completionMsgs ((NewModelSwitchCardHandler gpt ModelSwitchKind (some modelID)
          s).session.log.drop s.log.length) =
        [[{ Role := "user", Content := userQuestion s.msg }]]) ∧
    (∀ (gpt : Completer) (s : Session),
      (∀ msg ∈ completionMsgs
          ((NewAllModelsCardHandler gpt AllModelsKind s).session.log.drop s.log.length),
        msg = [{ Role := "user", Content := userQuestion s.msg }]) ∧
      completionMsgs
          ((NewAllModelsCardHandler gpt AllModelsKind s).session.log.drop s.log.length) ≠ [] ∧
      ((NewAllModelsCardHandler gpt AllModelsKind s).goroutine = .returned () →
        completionMsgs
            ((NewAllModelsCardHandler gpt AllModelsKind s).session.log.drop s.log.length) =
          List.replicate 3 [{ Role := "user", Content := userQuestion s.msg }])) := by
  refine ⟨?_, ?_, ?_, ?_⟩
  · intro front back m hm hback
    simp only [userQuestion, find_user_reverse front back m hm hback]
  · intro msg h
    simp [userQuestion, find_user_none msg h]
  · intro gpt modelID s
    simp only [NewModelSwitchCardHandler, ModelSwitchKind]
    rcases gpt [{ Role := "user", Content := userQuestion (SetCompareMode false
        (SetCurrentModel modelID s)).msg }] modelID with ⟨resp, _ | err⟩ | what <;>
      simp [SetCompareMode, SetCurrentModel, completionMsgs]
  · intro gpt s
    simp only [NewAllModelsCardHandler, AllModelsKind, mainModels, allModelsLoop]
    rcases gpt [{ Role := "user", Content := userQuestion s.msg }] "openai/gpt-4o" with
      ⟨r1, e1⟩ | w1 <;>
    rcases gpt [{ Role := "user", Content := userQuestion s.msg }]
      "anthropic/claude-sonnet-4" with ⟨r2, e2⟩ | w2 <;>
    rcases gpt [{ Role := "user", Content := userQuestion s.msg }]
      "deepseek/deepseek-chat-v3-0324:free" with ⟨r3, e3⟩ | w3 <;>
    simp [SetCompareMode, replyCard, completionMsgs, List.replicate]

/-- Witness for C22: the last of two user messages is the one asked again. -/
theorem C22_card_handlers_ask_last_user_message_witness :
    userQuestion twoQuestions = "second" ∧
    userQuestion ([{ Role := "user", Content := "first" },
        { Role := "assistant", Content := "one" }] ++
      { Role := "user", Content := "second" } :: [{ Role := "assistant", Content := "two" }]) =
      (if "second" = "" then "请介绍一下你自己" else "second") :=
  ⟨by decide,
    C22_card_handlers_ask_last_user_message.1
      [{ Role := "user", Content := "first" }, { Role := "assistant", Content := "one" }]
      [{ Role := "assistant", Content := "two" }] { Role := "user", Content := "second" } rfl
      (by decide)⟩

/-- C23 (evaluation at the failing input): when the request returns a nil error
and the response has no choice, `CompletionsWithModel` takes the `else` branch
and calls `err.Error()` on the nil error, which panics. That is its only
panic: otherwise it returns the first choice with a nil error, or an empty
message with an error. -/
theorem C23_zero_choices_with_nil_error_panics :
    CompletionsWithModel "https://openrouter.ai/api/v1/chat/completions" "openai/gpt-4o"
        none [] =
      .panicked "invalid memory address or nil pointer dereference" ∧
    (∀ (url model : String) (requestErr : Option String) (choices : List Messages),
      (∃ what, CompletionsWithModel url model requestErr choices = .panicked what) ↔
        (url ≠ "" ∧ requestErr = none ∧ choices = [])) ∧
    (∀ (url model : String) (requestErr : Option String) (choices : List Messages)
      (resp : Messages) (err : Option String),
      CompletionsWithModel url model requestErr choices = .returned resp err →
        (err = none ∧ choices.head? = some resp) ∨
        (err ≠ none ∧ resp = { Role := "", Content := "" })) := by
  refine ⟨by decide, ?_, ?_⟩
  · intro url model requestErr choices
    unfold CompletionsWithModel
    by_cases hu : url = ""
    · simp [hu]
    · cases requestErr <;> cases choices <;> simp [hu]
  · intro url model requestErr choices resp err h
    unfold CompletionsWithModel at h
    by_cases hu : url = ""
    · simp [hu] at h
      obtain ⟨rfl, rfl⟩ := h
      exact Or.inr ⟨by simp, rfl⟩
    · cases requestErr <;> cases choices <;> simp [hu] at h
      · obtain ⟨rfl, rfl⟩ := h
        exact Or.inl ⟨rfl, rfl⟩
      · obtain ⟨rfl, rfl⟩ := h
        exact Or.inr ⟨by simp, rfl⟩
      · obtain ⟨rfl, rfl⟩ := h
        exact Or.inr ⟨by simp, rfl⟩

/-- C24 (evaluation at the failing inputs): `decryptFeishuData` returns nil data
with a nil error when the decoded input has fewer than 16 bytes, and panics
when it has exactly 16 bytes, when the ciphertext is not a whole number of
blocks, and when the last decrypted byte exceeds the length of the buffer. -/
theorem C24_decrypt_returns_nil_nil_or_panics :
    decryptFeishuData sampleLib "key" "" = .returned none none ∧
    decryptFeishuData sampleLib "key" "aaaaaaaaaaaaaaaa" =
      .panicked "index out of range [-1]" ∧
    decryptFeishuData sampleLib "key" "aaaaaaaaaaaaaaaab" =
      .panicked "crypto/cipher: input not full blocks" ∧
    decryptFeishuData sampleLib "key" "aaaaaaaaaaaaaaaabbbbbbbbbbbbbbbb" =
      .panicked "slice bounds out of range" ∧
    (∀ (lib : CryptoLib) (encryptKey encryptStr : String) (data : List Nat),
      lib.decodeString encryptStr = .ok data →
        (data.length < 16 → decryptFeishuData lib encryptKey encryptStr = .returned none none) ∧
        (data.length = 16 →
          decryptFeishuData lib encryptKey encryptStr = .panicked "index out of range [-1]") ∧
        (16 < data.length → (data.length - 16) % 16 ≠ 0 →
          decryptFeishuData lib encryptKey encryptStr =
            .panicked "crypto/cipher: input not full blocks")) := by
  refine ⟨by decide, by decide, by decide, by decide, ?_⟩
  intro lib encryptKey encryptStr data hdecode
  have hk := lib.sha256_length encryptKey
  refine ⟨?_, ?_, ?_⟩
  · intro hlt
    simp [decryptFeishuData, hdecode, hlt]
  · intro heq
    have hdrop : data.drop 16 = [] := by
      apply List.drop_eq_nil_of_le
      omega
    have hout : lib.cryptBlocks (lib.sha256 encryptKey) (data.take 16) [] = [] := by
      have := lib.cryptBlocks_length (lib.sha256 encryptKey) (data.take 16) []
      simpa using this
    simp [decryptFeishuData, hdecode, heq, hk, hdrop, hout, removePadding]
  · intro hgt hmod
    have hlen : (data.drop 16).length = data.length - 16 := by simp
    simp only [decryptFeishuData, hdecode]
    rw [if_neg (by omega), if_neg (by omega), if_pos (by rw [hlen]; exact hmod)]

/-- C25 (evaluation at the failing input): a URL-verification request that
carries no token at all gets its challenge echoed with status 200, in plain
text and inside a decrypted body alike; only a token that is present and
different is refused. -/
theorem C25_challenge_echoed_without_token (verificationToken : String)
    (decrypt : String → DecryptOutcome) (unmarshal : List Nat → Option JObj)
    (challenge : JVal) :
    handleCardCallback verificationToken decrypt unmarshal
        (.parsed [("type", .str "url_verification"), ("challenge", challenge)]) =
      .json 200 "challenge" challenge ∧
    handleCardCallback verificationToken (fun _ => .returned (some [1]) none)
        (fun _ => some [("type", .str "url_verification"), ("challenge", challenge)])
        (.parsed [("encrypt", .str "x")]) =
      .json 200 "challenge" challenge ∧
    urlVerification verificationToken
        [("type", .str "url_verification"), ("token", .str (verificationToken ++ "x")),
         ("challenge", challenge)] =
      some (.json 401 "error" (.str "Invalid token")) := by
  refine ⟨?_, ?_, ?_⟩
  · simp [handleCardCallback, urlVerification, List.lookup]
  · simp [handleCardCallback, urlVerification, List.lookup]
  · have hne : verificationToken ++ "x" ≠ verificationToken := by
      intro h
      have := congrArg String.length h
      simp at this
      revert this
      decide
    simp [urlVerification, List.lookup, hne]

/-- C26: for every case mapping of `strings.ToLower` and every iteration order
of the catalog, `handleModelSwitch` sets the current model (and clears compare
mode) only when the query is an exact key of `SupportedModels` or `SearchModels`
returns exactly one model.  A query that is a key is found by the map access
and becomes the current model whatever `SearchModels` would return; a query
that is no key switches to the single search result when there is exactly one;
with no query, no match or several matches the handler only sends a reply, so
current model and compare mode stay as they were.  Every `SetCurrentModel` call
stores a key of `SupportedModels`. -/
theorem C26_switch_changes_state_only_on_unambiguous_match
    (lower : Char → Char) (order : List ModelInfo) (cmd : String) (s : Session)
    (horder : IsIterationOrder order) :
    ((Fields cmd).length < 2 →
      handleModelSwitch lower order cmd s = sendModelHelp s ∧
      (handleModelSwitch lower order cmd s).currentModel = s.currentModel ∧
      (handleModelSwitch lower order cmd s).compareMode = s.compareMode) ∧
    (∀ query, (Fields cmd)[1]? = some query →
      (query ∈ SupportedModels.map Prod.fst →
        (∃ model, (query, model) ∈ SupportedModels ∧ model.ID = query ∧
          GetModelInfo query = some model) ∧
        (handleModelSwitch lower order cmd s).currentModel = query ∧
        (handleModelSwitch lower order cmd s).compareMode = false) ∧
      (query ∉ SupportedModels.map Prod.fst →
        GetModelInfo query = none ∧
        (∀ model, SearchModels lower order query = [model] →
          (handleModelSwitch lower order cmd s).currentModel = model.ID ∧
          (handleModelSwitch lower order cmd s).compareMode = false) ∧
        ((SearchModels lower order query).length ≠ 1 →
          (∃ msg, handleModelSwitch lower order cmd s = replyMsg msg s) ∧
          (handleModelSwitch lower order cmd s).currentModel = s.currentModel ∧
          (handleModelSwitch lower order cmd s).compareMode = s.compareMode))) ∧
    (∀ modelID, Call.SetCurrentModel modelID ∈ (handleModelSwitch lower order cmd s).log →
      Call.SetCurrentModel modelID ∈ s.log ∨ modelID ∈ SupportedModels.map Prod.fst) ∧
    ((handleModelSwitch lower order cmd s).currentModel = s.currentModel ∨
      (handleModelSwitch lower order cmd s).currentModel ∈ SupportedModels.map Prod.fst) := by
  rcases hf : Fields cmd with _ | ⟨first, _ | ⟨query, rest⟩⟩
  · simp [handleModelSwitch, hf, sendModelHelp, replyMsg]
    exact fun _ h => Or.inl h
  · simp [handleModelSwitch, hf, sendModelHelp, replyMsg]
    exact fun _ h => Or.inl h
  · rcases hkey : GetModelInfo query with _ | model
    · have hnot : query ∉ SupportedModels.map Prod.fst := by
        intro h
        obtain ⟨m, hm⟩ := (mem_keys_iff_getModelInfo query).1 h
        rw [hkey] at hm
        cases hm
      have hnot2 : ∀ x, (query, x) ∉ SupportedModels := by
        intro x hx
        exact hnot (List.mem_map.2 ⟨_, hx, rfl⟩)
      rcases hsearch : SearchModels lower order query with _ | ⟨m, _ | ⟨m2, more⟩⟩
      · simp [handleModelSwitch, hf, hkey, hsearch, sendModelNotFound, replyMsg, hnot2]
        exact fun _ h => Or.inl h
      · have hm : m.ID ∈ SupportedModels.map Prod.fst :=
          order_id_key order horder m
            (searchModels_subset lower order query m (by rw [hsearch]; simp))
        have hm2 : ∃ x, (m.ID, x) ∈ SupportedModels := by simpa using hm
        simp [handleModelSwitch, hf, hkey, hsearch, replyMsg, SetCompareMode, SetCurrentModel,
          hnot2]
        refine ⟨?_, Or.inr hm2⟩
        rintro modelID (h | rfl)
        · exact Or.inl h
        · exact Or.inr hm2
      · simp [handleModelSwitch, hf, hkey, hsearch, sendModelSearchResults, replyMsg, hnot2]
        exact fun _ h => Or.inl h
    · obtain ⟨hid, hq⟩ := getModelInfo_key query model hkey
      have hmem : (query, model) ∈ SupportedModels := lookup_mem query model SupportedModels hkey
      have hq2 : ∃ x, (query, x) ∈ SupportedModels := ⟨model, hmem⟩
      simp [handleModelSwitch, hf, hkey, hid, replyMsg, SetCompareMode, SetCurrentModel, hq2,
        hmem]
      rintro modelID (h | rfl)
      · exact Or.inl h
      · exact Or.inr hq2

/-- Witness for C26: the key `openai/gpt-4o`, for which the search finds nothing,
is switched to; `/model gemini` has one search result and `/model gpt` several;
"Kimi" written with the Kelvin sign is found once the case mapping takes that
sign to `k`, and is not found with the ASCII case mapping. -/
theorem C26_switch_changes_state_only_on_unambiguous_match_witness :
    IsIterationOrder (SupportedModels.map Prod.snd) ∧
    (SearchModels Char.toLower (SupportedModels.map Prod.snd) "openai/gpt-4o" = [] ∧
      (handleModelSwitch Char.toLower (SupportedModels.map Prod.snd) "/model openai/gpt-4o"
        sampleSession).currentModel = "openai/gpt-4o" ∧
      (handleModelSwitch Char.toLower (SupportedModels.map Prod.snd) "/model openai/gpt-4o"
        sampleSession).compareMode = false) ∧
    (SearchModels Char.toLower (SupportedModels.map Prod.snd) "gemini" = [geminiPro] ∧
      (handleModelSwitch Char.toLower (SupportedModels.map Prod.snd) "/model gemini"
        sampleSession).currentModel = geminiPro.ID ∧
      (handleModelSwitch Char.toLower (SupportedModels.map Prod.snd) "/model gemini"
        sampleSession).compareMode = false) ∧
    ((SearchModels Char.toLower (SupportedModels.map Prod.snd) "gpt").length = 2 ∧
      (handleModelSwitch Char.toLower (SupportedModels.map Prod.snd) "/model gpt"
        sampleSession).currentModel = sampleSession.currentModel ∧
      (handleModelSwitch Char.toLower (SupportedModels.map Prod.snd) "/model gpt"
        sampleSession).compareMode = true) ∧
    (SearchModels kelvinLower (SupportedModels.map Prod.snd)
        (String.mk [Char.ofNat 0x212A, 'i', 'm', 'i']) = [kimiK2] ∧
      (handleModelSwitch kelvinLower (SupportedModels.map Prod.snd) kelvinCommand
        sampleSession).currentModel = "moonshot/kimi-k2-0711-preview") ∧
    (SearchModels Char.toLower (SupportedModels.map Prod.snd)
        (String.mk [Char.ofNat 0x212A, 'i', 'm', 'i']) = [] ∧
      (handleModelSwitch Char.toLower (SupportedModels.map Prod.snd) kelvinCommand
        sampleSession).currentModel = sampleSession.currentModel) :=
  ⟨List.Perm.refl _,
   ⟨by decide,
    (((C26_switch_changes_state_only_on_unambiguous_match Char.toLower
      (SupportedModels.map Prod.snd) "/model openai/gpt-4o" sampleSession
      (List.Perm.refl _)).2.1 "openai/gpt-4o" (by decide)).1 (by decide)).2.1,
    (((C26_switch_changes_state_only_on_unambiguous_match Char.toLower
      (SupportedModels.map Prod.snd) "/model openai/gpt-4o" sampleSession
      (List.Perm.refl _)).2.1 "openai/gpt-4o" (by decide)).1 (by decide)).2.2⟩,
   ⟨by decide,
    ((((C26_switch_changes_state_only_on_unambiguous_match Char.toLower
      (SupportedModels.map Prod.snd) "/model gemini" sampleSession
      (List.Perm.refl _)).2.1 "gemini" (by decide)).2 (by decide)).2.1 geminiPro
        (by decide)).1,
    ((((C26_switch_changes_state_only_on_unambiguous_match Char.toLower
      (SupportedModels.map Prod.snd) "/model gemini" sampleSession
      (List.Perm.refl _)).2.1 "gemini" (by decide)).2 (by decide)).2.1 geminiPro
        (by decide)).2⟩,
   ⟨by decide,
    ((((C26_switch_changes_state_only_on_unambiguous_match Char.toLower
      (SupportedModels.map Prod.snd) "/model gpt" sampleSession
      (List.Perm.refl _)).2.1 "gpt" (by decide)).2 (by decide)).2.2 (by decide)).2.1,
    ((((C26_switch_changes_state_only_on_unambiguous_match Char.toLower
      (SupportedModels.map Prod.snd) "/model gpt" sampleSession
      (List.Perm.refl _)).2.1 "gpt" (by decide)).2 (by decide)).2.2 (by decide)).2.2⟩,
   ⟨by decide,
    ((((C26_switch_changes_state_only_on_unambiguous_match kelvinLower
      (SupportedModels.map Prod.snd) kelvinCommand sampleSession
      (List.Perm.refl _)).2.1 (String.mk [Char.ofNat 0x212A, 'i', 'm', 'i'])
        (by decide)).2 (by decide)).2.1 kimiK2 (by decide)).1⟩,
   ⟨by decide,
    ((((C26_switch_changes_state_only_on_unambiguous_match Char.toLower
      (SupportedModels.map Prod.snd) kelvinCommand sampleSession
      (List.Perm.refl _)).2.1 (String.mk [Char.ofNat 0x212A, 'i', 'm', 'i'])
        (by decide)).2 (by decide)).2.2 (by decide)).2.1⟩⟩

/-- C27: for every iteration order of the catalog and every case mapping,
`SearchModels` returns exactly the catalog models whose Name, Description or
Provider contains the keyword ignoring letter case, each at most once and in
the order visited; two keywords with the same lower-case form give the same
result, any two iteration orders give the same models, and the empty keyword
returns every model. -/
theorem C27_search_returns_exactly_the_matching_models
    (lower : Char → Char) (order : List ModelInfo) (horder : IsIterationOrder order) :
    (∀ keyword model, model ∈ SearchModels lower order keyword ↔
      model ∈ SupportedModels.map Prod.snd ∧
      (ContainsIgnoringCase lower model.Name keyword ∨
       ContainsIgnoringCase lower model.Description keyword ∨
       ContainsIgnoringCase lower model.Provider keyword)) ∧
    (∀ keyword, (SearchModels lower order keyword).Nodup) ∧
    (∀ keyword1 keyword2, ToLower lower keyword1 = ToLower lower keyword2 →
      SearchModels lower order keyword1 = SearchModels lower order keyword2) ∧
    (∀ order2, IsIterationOrder order2 → ∀ keyword,
      (SearchModels lower order keyword).Perm (SearchModels lower order2 keyword)) ∧
    SearchModels lower order "" = order ∧
    (∀ model, model ∈ SearchModels lower order "" ↔ model ∈ SupportedModels.map Prod.snd) ∧
    (∀ keyword, (SearchModels lower order keyword).Sublist order) := by
  have hempty : SearchModels lower order "" = order := by
    simp only [SearchModels]
    apply List.filter_eq_self.2
    intro model _
    have : Contains (ToLower lower model.Name) (ToLower lower "") = true := by
      rw [contains_iff_consecutive]
      exact ⟨[], (ToLower lower model.Name).data, rfl⟩
    simp [this]
  refine ⟨?_, ?_, ?_, ?_, hempty, ?_, ?_⟩
  · intro keyword model
    simp only [SearchModels, List.mem_filter, Bool.or_eq_true, contains_toLower_iff,
      horder.mem_iff, or_assoc]
  · intro keyword
    exact ((horder.nodup_iff).2 catalog_nodup).filter _
  · intro keyword1 keyword2 h
    simp only [SearchModels, h]
  · intro order2 horder2 keyword
    exact (horder.trans horder2.symm).filter _
  · intro model
    rw [hempty]
    exact horder.mem_iff
  · intro keyword
    exact List.filter_sublist _

/-- Witness for C27: the keywords `QWEN` and `qwen`, and the empty keyword. -/
theorem C27_search_returns_exactly_the_matching_models_witness :
    IsIterationOrder (SupportedModels.map Prod.snd) ∧
    ToLower Char.toLower "QWEN" = ToLower Char.toLower "qwen" ∧
    (SearchModels Char.toLower (SupportedModels.map Prod.snd) "qwen").map ModelInfo.ID =
      ["qwen/qwen3-coder:free"] ∧
    SearchModels Char.toLower (SupportedModels.map Prod.snd) "QWEN" =
      SearchModels Char.toLower (SupportedModels.map Prod.snd) "qwen" ∧
    SearchModels Char.toLower (SupportedModels.map Prod.snd) "" =
      SupportedModels.map Prod.snd :=
  ⟨List.Perm.refl _, by decide, by decide,
    (C27_search_returns_exactly_the_matching_models Char.toLower (SupportedModels.map Prod.snd)
      (List.Perm.refl _)).2.2.1 "QWEN" "qwen" (by decide),
    (C27_search_returns_exactly_the_matching_models Char.toLower (SupportedModels.map Prod.snd)
      (List.Perm.refl _)).2.2.2.2.1⟩

end Feishu
